import Mathlib

/-!
Shallow embedding of the core of a DNP3 outstation/master stack:
the outstation session state machine (`src/dnp3/src/outstation/session.rs`),
the master restart task (`src/dnp3/src/master/tasks/restart.rs`),
octet-string measurement construction (`src/dnp3/src/app/measurement.rs`)
and the link-layer reader (`src/src/link/reader.rs`).

External collaborators of the session (the xxh64 digest, the application
callbacks, the point database, the control handler and the monotonic clock)
are modelled as fields of an `Env` record; the session functions are
translated from the Rust source over that record.  Transmit buffers are
modelled as lists of emitted objects, and monotonic instants as natural
numbers.
-/

namespace Dnp3

/-- Four-bit application-layer sequence number; only equality is used by the
embedded functions, so it is modelled as `Nat`. -/
abbrev Sequence := Nat

/-- IIN byte 1 as a record of its flag bits. -/
structure Iin1 where
  broadcast : Bool := false
  class1Events : Bool := false
  class2Events : Bool := false
  class3Events : Bool := false
  needTime : Bool := false
  localControl : Bool := false
  deviceTrouble : Bool := false
  restart : Bool := false
deriving DecidableEq, Repr

/-- IIN byte 2 as a record of its flag bits. -/
structure Iin2 where
  noFuncCodeSupport : Bool := false
  objectUnknown : Bool := false
  parameterError : Bool := false
  eventBufferOverflow : Bool := false
  alreadyExecuting : Bool := false
  configCorrupt : Bool := false
deriving DecidableEq, Repr

def Iin1.or (a b : Iin1) : Iin1 :=
  ⟨a.broadcast || b.broadcast, a.class1Events || b.class1Events,
   a.class2Events || b.class2Events, a.class3Events || b.class3Events,
   a.needTime || b.needTime, a.localControl || b.localControl,
   a.deviceTrouble || b.deviceTrouble, a.restart || b.restart⟩

def Iin2.or (a b : Iin2) : Iin2 :=
  ⟨a.noFuncCodeSupport || b.noFuncCodeSupport, a.objectUnknown || b.objectUnknown,
   a.parameterError || b.parameterError, a.eventBufferOverflow || b.eventBufferOverflow,
   a.alreadyExecuting || b.alreadyExecuting, a.configCorrupt || b.configCorrupt⟩

/-- Rust `Iin1::RESTART` -/
def Iin1.RESTART : Iin1 := { restart := true }

/-- Rust `Iin1::BROADCAST` -/
def Iin1.BROADCAST : Iin1 := { broadcast := true }

def Iin1.CLASS_1_EVENTS : Iin1 := { class1Events := true }

def Iin1.CLASS_2_EVENTS : Iin1 := { class2Events := true }

def Iin1.CLASS_3_EVENTS : Iin1 := { class3Events := true }

/-- Rust `Iin2::NO_FUNC_CODE_SUPPORT` -/
def Iin2.NO_FUNC_CODE_SUPPORT : Iin2 := { noFuncCodeSupport := true }

/-- Rust `Iin2::OBJECT_UNKNOWN` -/
def Iin2.OBJECT_UNKNOWN : Iin2 := { objectUnknown := true }

/-- Rust `Iin2::PARAMETER_ERROR` -/
def Iin2.PARAMETER_ERROR : Iin2 := { parameterError := true }

/-- Rust `Iin2::EVENT_BUFFER_OVERFLOW` -/
def Iin2.EVENT_BUFFER_OVERFLOW : Iin2 := { eventBufferOverflow := true }

/-- The pair of IIN bytes carried on every response. -/
structure Iin where
  iin1 : Iin1 := {}
  iin2 : Iin2 := {}
deriving DecidableEq, Repr

/-- Rust `Iin::default()` -/
def Iin.default : Iin := {}

def Iin.or (a b : Iin) : Iin := ⟨a.iin1.or b.iin1, a.iin2.or b.iin2⟩

/-- Rust `iin | iin2` (the `BitOr<Iin2>` impl). -/
def Iin.orIin2 (a : Iin) (b : Iin2) : Iin := ⟨a.iin1, a.iin2.or b⟩

/-- Rust `iin |= iin1` -/
def Iin.orIin1 (a : Iin) (b : Iin1) : Iin := ⟨a.iin1.or b, a.iin2⟩

/-- Application-layer control field `{fir, fin, con, uns, seq}`. -/
structure ControlField where
  fir : Bool
  fin : Bool
  con : Bool
  uns : Bool
  seq : Sequence
deriving DecidableEq, Repr

/-- Rust `ControlField::response(seq, fir, fin, con)` -/
def ControlField.response (seq : Sequence) (fir fin con : Bool) : ControlField :=
  ⟨fir, fin, con, false, seq⟩

/-- Rust `ControlField::single_response(seq)`: fir and fin set, no confirm. -/
def ControlField.single_response (seq : Sequence) : ControlField :=
  ControlField.response seq true true false

/-- Rust `ControlField::unsolicited_response(seq)`: fir, fin, con and uns all set. -/
def ControlField.unsolicited_response (seq : Sequence) : ControlField :=
  ⟨true, true, true, true, seq⟩

inductive ResponseFunction where
  | response
  | unsolicitedResponse
deriving DecidableEq, Repr

/-- Application response header `{control, function, iin}`. -/
structure ResponseHeader where
  control : ControlField
  function : ResponseFunction
  iin : Iin
deriving DecidableEq, Repr

def ResponseHeader.new (control : ControlField) (function : ResponseFunction)
    (iin : Iin) : ResponseHeader :=
  ⟨control, function, iin⟩

/-- One object emitted into a transmit buffer.  The Rust code writes raw
bytes through a cursor; the buffer contents are modelled as the list of
objects written after the response header. -/
inductive RespObject where
  /-- Rust `Group52Var1 { time }` (restart delay, seconds) -/
  | g52v1 (time : Nat)
  /-- Rust `Group52Var2 { time }` (delay, milliseconds) -/
  | g52v2 (time : Nat)
  /-- echo of control objects with per-point statuses -/
  | controlEcho
  /-- opaque chunk written by the database (`write_response_headers`
  or `write_unsolicited`) -/
  | dbData (tag : Nat)
deriving DecidableEq, Repr

/-- Rust `Response` = response header plus the contents of the associated
transmit buffer (modelled as the object list instead of a byte count). -/
structure Response where
  header : ResponseHeader
  objects : List RespObject
deriving DecidableEq, Repr

/-- Rust `Response::empty_solicited(seq, iin)` -/
def Response.empty_solicited (seq : Sequence) (iin : Iin) : Response :=
  ⟨ResponseHeader.new (ControlField.response seq true true false)
    ResponseFunction.response iin, []⟩

/-- Rust `Response::seq()` -/
def Response.seq (r : Response) : Sequence := r.header.control.seq

/-- Rust `ResponseSeries { ecsn, fin }` -/
structure ResponseSeries where
  ecsn : Sequence
  fin : Bool
deriving DecidableEq, Repr

/-- Application-layer function codes used by the core (unsupported codes are
represented by their numeric value). -/
inductive FunctionCode where
  | confirm
  | read
  | write
  | select
  | operate
  | directOperate
  | directOperateNoResponse
  | immediateFreeze
  | immediateFreezeNoResponse
  | freezeClear
  | freezeClearNoResponse
  | coldRestart
  | warmRestart
  | delayMeasure
  | recordCurrentTime
  | enableUnsolicited
  | disableUnsolicited
  | unsupported (code : Nat)
deriving DecidableEq, Repr

/-- Rust `ObjectParseError` (payload details dropped). -/
inductive ObjectParseError where
  | insufficientBytes
  | invalidQualifierForVariation
  | invalidRange
  | unknownGroupVariation
  | unsupportedQualifierCode
  | unknownQualifier
  | zeroLengthOctetData
deriving DecidableEq, Repr

/-- Rust `impl From<ObjectParseError> for Iin2` at the bottom of `session.rs`. -/
def Iin2.fromParseError : ObjectParseError → Iin2
  | .insufficientBytes => Iin2.PARAMETER_ERROR
  | .invalidQualifierForVariation => Iin2.NO_FUNC_CODE_SUPPORT
  | .invalidRange => Iin2.PARAMETER_ERROR
  | .unknownGroupVariation => Iin2.OBJECT_UNKNOWN
  | .unsupportedQualifierCode => Iin2.PARAMETER_ERROR
  | .unknownQualifier => Iin2.PARAMETER_ERROR
  | .zeroLengthOctetData => Iin2.PARAMETER_ERROR

/-- Rust `Group50Var1 { time }`: absolute timestamp (48-bit ms value). -/
structure Group50Var1 where
  time : Nat
deriving DecidableEq, Repr

/-- Rust `Group50Var3 { time }`: last-recorded-time timestamp. -/
structure Group50Var3 where
  time : Nat
deriving DecidableEq, Repr

/-- Rust `Group52Var1 { time }`: restart delay in seconds (u16). -/
structure Group52Var1 where
  time : Nat
deriving DecidableEq, Repr

/-- Rust `Group52Var2 { time }`: delay in milliseconds (u16). -/
structure Group52Var2 where
  time : Nat
deriving DecidableEq, Repr

/-- The all-objects (qualifier 0x06) variations matched by the session. -/
inductive AllObjectsVariation where
  | g20v0
  | g60v2
  | g60v3
  | g60v4
  | otherAll (group variation : Nat)
deriving DecidableEq, Repr

/-- The ranged variations matched by the session.  `g80v1` carries the parsed
bit sequence as `(value, index)` pairs, mirroring `seq.iter()`. -/
inductive RangedVariation where
  | g80v1 (bits : List (Bool × Nat))
  | g20v0
  | otherRanged (group variation : Nat)
deriving DecidableEq, Repr

/-- The count variations matched by the session and the restart task; a
`CountSequence<T>` is modelled as the list of its parsed values. -/
inductive CountVariation where
  | g50v1 (values : List Group50Var1)
  | g50v3 (values : List Group50Var3)
  | g52v1 (values : List Group52Var1)
  | g52v2 (values : List Group52Var2)
  | otherCount (group variation : Nat)
deriving DecidableEq, Repr

/-- Rust `CountSequence::single()`: the single value iff there is exactly one. -/
def single {α : Type} : List α → Option α
  | [x] => some x
  | _ => none

/-- Rust `HeaderDetails`: qualifier shape plus variation payload. -/
inductive HeaderDetails where
  | allObjects (v : AllObjectsVariation)
  | oneByteStartStop (start stop : Nat) (v : RangedVariation)
  | twoByteStartStop (start stop : Nat) (v : RangedVariation)
  | oneByteCount (v : CountVariation)
  | twoByteCount (v : CountVariation)
deriving DecidableEq, Repr

/-- Rust `HeaderDetails::count()`: the count variation for a count qualifier. -/
def HeaderDetails.count : HeaderDetails → Option CountVariation
  | .oneByteCount v => some v
  | .twoByteCount v => some v
  | _ => none

/-- One parsed object header. -/
structure Header where
  details : HeaderDetails
deriving DecidableEq, Repr

/-- Rust `HeaderCollection` is modelled as the list of parsed headers. -/
abbrev HeaderCollection := List Header

/-- Rust `HeaderCollection::get_only_header()` -/
def get_only_header (h : HeaderCollection) : Option Header := single h

/-- Errors when creating an octet string (`app/measurement.rs`). -/
inductive OctetStringError where
  | zeroLength
  | moreThan255Octets
deriving DecidableEq, Repr

/-- Rust `OctetString`: fixed 255-byte array plus a length.  The array is modelled
as the list of its 255 bytes. -/
structure OctetString where
  value : List Nat
  len : Nat
deriving DecidableEq, Repr

/-- Rust `OctetString::MAX_SIZE` -/
def OctetString.MAX_SIZE : Nat := 255

/-- Rust `OctetString::new(value)`: length 0 is `ZeroLength`, length above 255 is
`MoreThan255Octets`; otherwise the bytes are copied into a zeroed 255-byte
array. -/
def OctetString.new (value : List Nat) : Except OctetStringError OctetString :=
  let len := value.length
  if len = 0 then
    Except.error OctetStringError.zeroLength
  else if len > 255 then
    Except.error OctetStringError.moreThan255Octets
  else
    Except.ok ⟨value ++ List.replicate (255 - len) 0, len⟩

/-- Rust `OctetString::value()`: the first `len` bytes of the array. -/
def OctetString.getValue (o : OctetString) : List Nat := o.value.take o.len

/-- Rust `TaskError` (master task errors relevant to `RestartTask::handle`). -/
inductive TaskError where
  | unexpectedResponseHeaders
  | malformedResponse (err : ObjectParseError)
deriving DecidableEq, Repr

/-- Rust `std::time::Duration`, modelled in milliseconds (both constructors used
by the restart task are exactly representable in milliseconds). -/
structure Duration where
  millis : Nat
deriving DecidableEq, Repr

/-- Rust `Duration::from_secs` -/
def Duration.from_secs (t : Nat) : Duration := ⟨1000 * t⟩

/-- Rust `Duration::from_millis` -/
def Duration.from_millis (t : Nat) : Duration := ⟨t⟩

/-- A parsed master-side response: only the object headers matter to the
restart task. -/
structure MasterResponse where
  objects : Except ObjectParseError HeaderCollection

/-- Rust `RestartTask::handle`, returning the value delivered through the
task's one-shot promise. -/
def RestartTask.handle (response : MasterResponse) : Except TaskError Duration :=
  match response.objects with
  | .error err => Except.error (TaskError.malformedResponse err)
  | .ok headers =>
    match get_only_header headers with
    | none => Except.error TaskError.unexpectedResponseHeaders
    | some header =>
      match header.details.count with
      | none => Except.error TaskError.unexpectedResponseHeaders
      | some count =>
        match count with
        | .g52v1 vals =>
          match single vals with
          | some val => Except.ok (Duration.from_secs val.time)
          | none => Except.error TaskError.unexpectedResponseHeaders
        | .g52v2 vals =>
          match single vals with
          | some val => Except.ok (Duration.from_millis val.time)
          | none => Except.error TaskError.unexpectedResponseHeaders
        | _ => Except.error TaskError.unexpectedResponseHeaders

/-- Specification-shaped restart handler, written from the spec's words:
"Expects a response with exactly one header of Group52Var1 (seconds) or
Group52Var2 (milliseconds), quantity one.  Produces `Duration`; any other
shape yields `UnexpectedResponseHeaders`; a malformed parse yields
`MalformedResponse(err)`."  Used to compare against `RestartTask.handle`. -/
def restartHandleSpec (response : MasterResponse) : Except TaskError Duration :=
  match response.objects with
  | .error err => Except.error (TaskError.malformedResponse err)
  | .ok headers =>
    match headers with
    | [h] =>
      match h.details.count with
      | some (.g52v1 [v]) => Except.ok (Duration.from_secs v.time)
      | some (.g52v2 [v]) => Except.ok (Duration.from_millis v.time)
      | _ => Except.error TaskError.unexpectedResponseHeaders
    | _ => Except.error TaskError.unexpectedResponseHeaders

/-- Broadcast address confirm mode detected at the link layer. -/
inductive BroadcastConfirmMode where
  | mandatory
  | optional
deriving DecidableEq, Repr

/-- Rust `FragmentInfo`: monotonically increasing fragment id plus the optional
broadcast mode. -/
structure FragmentInfo where
  id : Nat
  broadcast : Option BroadcastConfirmMode
deriving DecidableEq, Repr

deriving instance DecidableEq for Except

/-- Parsed application request header. -/
structure RequestHeader where
  control : ControlField
  function : FunctionCode
deriving DecidableEq, Repr

/-- A parsed application request: header, raw fragment bytes (hashed for
duplicate detection) and the object-header parse result. -/
structure Request where
  header : RequestHeader
  raw_fragment : List Nat
  objects : Except ObjectParseError HeaderCollection
deriving DecidableEq, Repr

/-- Rust `HeaderParseError` -/
inductive HeaderParseError where
  | unknownFunction (seq : Sequence) (code : Nat)
  | insufficientBytes
deriving DecidableEq, Repr

/-- Rust `TransportRequestError` -/
inductive TransportRequestError where
  | headerParseError (err : HeaderParseError)
  | requestValidationError (seq : Sequence) (code : Nat)
deriving DecidableEq, Repr

/-- Rust `TransportRequest`: what `reader.pop_request()` yields. -/
inductive TransportRequest where
  | request (info : FragmentInfo) (req : Request)
  | linkLayerMessage
  | transportError (err : TransportRequestError)
deriving DecidableEq, Repr

/-- Rust `LastValidRequest { seq, request_hash, response, series }` -/
structure LastValidRequest where
  seq : Sequence
  request_hash : Nat
  response : Option Response
  series : Option ResponseSeries
deriving DecidableEq, Repr

def LastValidRequest.new (seq : Sequence) (request_hash : Nat)
    (response : Option Response) (series : Option ResponseSeries) : LastValidRequest :=
  ⟨seq, request_hash, response, series⟩

/-- Rust `SelectState { seq, frame_id, time, object_hash }` (from
`outstation/control/select.rs`, held by the session). -/
structure SelectState where
  seq : Sequence
  frame_id : Nat
  time : Nat
  object_hash : Nat
deriving DecidableEq, Repr

/-- Rust `SelectState::update_frame_id` -/
def SelectState.update_frame_id (s : SelectState) (frame_id : Nat) : SelectState :=
  { s with frame_id := frame_id }

/-- Rust `EventClasses` -/
structure EventClasses where
  class1 : Bool
  class2 : Bool
  class3 : Bool
deriving DecidableEq, Repr

def EventClasses.none : EventClasses := ⟨false, false, false⟩

def EventClasses.any (c : EventClasses) : Bool := c.class1 || c.class2 || c.class3

/-- Rust `UnsolicitedState` -/
inductive UnsolicitedState where
  | nullRequired
  | ready (retry_deadline : Option Nat)
deriving DecidableEq, Repr

/-- The deferred-read slot: `DeferredRead::set` stores the hash, sequence,
fragment info and headers of a READ received during an unsolicited wait. -/
structure DeferredReadState where
  hash : Nat
  seq : Sequence
  info : FragmentInfo
  headers : HeaderCollection
deriving DecidableEq, Repr

/-- Rust `SessionState`: the state that mutates while the session runs.
`DeferredRead` is modelled as its optional contents and monotonic instants
as naturals. -/
structure SessionState where
  restart_iin_asserted : Bool
  enabled_unsolicited_classes : EventClasses
  last_valid_request : Option LastValidRequest
  select : Option SelectState
  unsolicited : UnsolicitedState
  unsolicited_seq : Sequence
  deferred_read : Option DeferredReadState
  last_recorded_time : Option Nat
  last_broadcast_type : Option BroadcastConfirmMode
deriving DecidableEq, Repr

/-- Rust `SessionState::new` -/
def SessionState.new : SessionState where
  enabled_unsolicited_classes := EventClasses.none
  restart_iin_asserted := true
  last_valid_request := none
  select := none
  unsolicited := UnsolicitedState.nullRequired
  unsolicited_seq := 0
  deferred_read := none
  last_recorded_time := none
  last_broadcast_type := none

/-- Rust `WriteTimeResult` returned by the application's time-write callback. -/
inductive WriteTimeResult where
  | notSupported
  | invalidValue
  | timeOk
deriving DecidableEq, Repr

/-- Rust `RestartDelay` returned by the application's restart callbacks. -/
inductive RestartDelay where
  | seconds (value : Nat)
  | milliseconds (value : Nat)
deriving DecidableEq, Repr

/-- Rust `CommandStatus` values distinguished by the session. -/
inductive CommandStatus where
  | success
  | notSupported
  | noSelect
  | timeoutSelect
  | formatError
  | otherStatus (code : Nat)
deriving DecidableEq, Repr

/-- Rust `FreezeType` -/
inductive FreezeType where
  | immediateFreeze
  | freezeAndClear
deriving DecidableEq, Repr

/-- Rust `database.get_events_info()` -/
structure EventsInfo where
  unwritten_classes : EventClasses
  is_overflown : Bool
deriving DecidableEq, Repr

/-- Result of `database.write_response_headers` together with the objects it
wrote: `ResponseInfo { complete }` plus `need_confirm()`. -/
structure DbWrite where
  payload : List RespObject
  complete : Bool
  need_confirm : Bool
deriving DecidableEq, Repr

/-- Rust `ResponseInfo::get_response_series(ecsn)` -/
def DbWrite.get_response_series (info : DbWrite) (ecsn : Sequence) : Option ResponseSeries :=
  if info.need_confirm then some ⟨ecsn, info.complete⟩ else none

/-- External collaborators of the session, bundled: the xxh64 digest and
the `HeaderCollection::hash` digest, the monotonic clock, the application
callbacks, the database handle's query results and the control-collection
outcomes.  Session functions are parameterized over this record. -/
structure Env where
  /-- Rust `xxh64(raw_fragment, 0)` (external `xxhash_rust` crate) -/
  xxh64 : List Nat → Nat
  /-- Rust `object_headers.hash()` -/
  headersHash : HeaderCollection → Nat
  /-- Rust `Instant::now()` on the monotonic clock -/
  now : Nat
  /-- Rust `application.write_absolute_time(ts)` -/
  writeAbsoluteTime : Nat → WriteTimeResult
  /-- Rust `application.cold_restart()` -/
  coldRestart : Option RestartDelay
  /-- Rust `application.warm_restart()` -/
  warmRestart : Option RestartDelay
  /-- Rust `application.get_processing_delay_ms()` -/
  processingDelayMs : Nat
  /-- Rust `application.get_application_iin()` -/
  appIin : Iin
  /-- Rust `application.freeze_counter(indices, freeze_type, db)` aggregate -/
  freezeCounter : FreezeType → Iin
  /-- Rust `database.get_events_info()` -/
  eventsInfo : EventsInfo
  /-- Rust `database.select(&object_headers)` -/
  dbSelect : HeaderCollection → Iin2
  /-- Rust `database.write_response_headers(cursor)` and the objects written -/
  dbWrite : DbWrite
  /-- whether `ControlCollection::from(object_headers)` succeeds -/
  controlParseOk : HeaderCollection → Bool
  /-- aggregate status of the control select phase -/
  selectResult : CommandStatus
  /-- aggregate status of the control operate phase -/
  operateResult : CommandStatus
  /-- Rust `SelectState::match_operate` (external `control/select.rs`) -/
  matchOperate : SelectState → Nat → Sequence → Nat → Nat → Except CommandStatus Unit

/-- The subset of `SessionConfig` consulted by the embedded functions. -/
structure SessionConfig where
  confirm_timeout : Nat
  select_timeout : Nat
  broadcastEnabled : Bool
  unsolicitedEnabled : Bool
  max_unsolicited_retries : Option Nat
  unsolicited_retry_delay : Nat

/-- Rust `FragmentType`: the session's classification of an incoming fragment. -/
inductive FragmentType where
  | malformedRequest (hash : Nat) (err : ObjectParseError)
  | newRead (hash : Nat) (objects : HeaderCollection)
  | repeatRead (hash : Nat) (response : Option Response) (objects : HeaderCollection)
  | newNonRead (hash : Nat) (objects : HeaderCollection)
  | repeatNonRead (hash : Nat) (response : Option Response)
  | broadcast (mode : BroadcastConfirmMode)
  | solicitedConfirm (seq : Sequence)
  | unsolicitedConfirm (seq : Sequence)
deriving DecidableEq, Repr

/-- Rust `OutstationSession::classify` -/
def classify (env : Env) (st : SessionState) (info : FragmentInfo)
    (request : Request) : FragmentType :=
  if request.header.function = FunctionCode.confirm then
    if request.header.control.uns then
      FragmentType.unsolicitedConfirm request.header.control.seq
    else
      FragmentType.solicitedConfirm request.header.control.seq
  else
    match info.broadcast with
    | some mode => FragmentType.broadcast mode
    | none =>
      let this_hash := env.xxh64 request.raw_fragment
      match request.objects with
      | .error err => FragmentType.malformedRequest this_hash err
      | .ok object_headers =>
        let repeated :=
          match st.last_valid_request with
          | some last =>
            if last.seq = request.header.control.seq ∧ last.request_hash = this_hash then
              some last.response
            else
              none
          | none => none
        match repeated with
        | some last_response =>
          if request.header.function = FunctionCode.read then
            FragmentType.repeatRead this_hash last_response object_headers
          else
            FragmentType.repeatNonRead this_hash last_response
        | none =>
          if request.header.function = FunctionCode.read then
            FragmentType.newRead this_hash object_headers
          else
            FragmentType.newNonRead this_hash object_headers

/-- Maximum value of a 48-bit DNP3 millisecond timestamp.  Modelled from the
spec: `Time` ranges over millisecond absolute timestamps (the `Timestamp`
codec type is external). -/
def Timestamp.MAX : Nat := 2 ^ 48 - 1

/-- Rust `Timestamp::checked_add(duration)` -/
def Timestamp.checked_add (t delay : Nat) : Option Nat :=
  if t + delay ≤ Timestamp.MAX then some (t + delay) else none

/-- Rust `Instant::checked_duration_since` on the monotonic clock. -/
def checked_duration_since (now earlier : Nat) : Option Nat :=
  if earlier ≤ now then some (now - earlier) else none

/-- Rust `OutstationSession::handle_g50v3`: Group50Var3 last-recorded-time
offset write. -/
def handle_g50v3 (env : Env) (st : SessionState) (values : List Group50Var3) :
    SessionState × Iin2 :=
  match single values with
  | none => (st, Iin2.PARAMETER_ERROR)
  | some value =>
    match st.last_recorded_time with
    | none => (st, Iin2.PARAMETER_ERROR)
    | some last_recorded_time =>
      match checked_duration_since env.now last_recorded_time with
      | none => (st, Iin2.PARAMETER_ERROR)
      | some delay =>
        match Timestamp.checked_add value.time delay with
        | none => (st, Iin2.PARAMETER_ERROR)
        | some timestamp =>
          let st := { st with last_recorded_time := none }
          match env.writeAbsoluteTime timestamp with
          | .notSupported => (st, Iin2.NO_FUNC_CODE_SUPPORT)
          | .invalidValue => (st, Iin2.PARAMETER_ERROR)
          | .timeOk => (st, {})

/-- One `(value, index)` iteration of the Group80Var1 bit loop inside
`handle_write`. -/
def handle_g80v1_bit (st : SessionState) (iin2 : Iin2) (bit : Bool × Nat) :
    SessionState × Iin2 :=
  if bit.2 = 7 then
    if bit.1 then
      (st, iin2.or Iin2.PARAMETER_ERROR)
    else
      ({ st with restart_iin_asserted := false }, iin2)
  else
    (st, iin2.or Iin2.PARAMETER_ERROR)

/-- Rust `OutstationSession::handle_write` -/
def handle_write (env : Env) (st : SessionState) (seq : Sequence)
    (object_headers : HeaderCollection) : SessionState × Response :=
  let (st, iin2) :=
    match get_only_header object_headers with
    | some header =>
      match header.details with
      | .oneByteStartStop _ _ (.g80v1 bits) =>
        bits.foldl (fun p bit => handle_g80v1_bit p.1 p.2 bit) (st, {})
      | .oneByteCount (.g50v1 values) =>
        match single values with
        | some value =>
          match env.writeAbsoluteTime value.time with
          | .notSupported => (st, Iin2.NO_FUNC_CODE_SUPPORT)
          | .invalidValue => (st, Iin2.PARAMETER_ERROR)
          | .timeOk => (st, {})
        | none => (st, Iin2.PARAMETER_ERROR)
      | .oneByteCount (.g50v3 values) => handle_g50v3 env st values
      | _ => (st, Iin2.NO_FUNC_CODE_SUPPORT)
    | none => (st, {})
  (st, Response.empty_solicited seq (Iin.default.orIin2 iin2))

/-- Rust `OutstationSession::handle_delay_measure` -/
def handle_delay_measure (env : Env) (seq : Sequence) : Response :=
  ⟨ResponseHeader.new (ControlField.response seq true true false)
    ResponseFunction.response Iin.default,
   [RespObject.g52v2 env.processingDelayMs]⟩

/-- Rust `OutstationSession::handle_record_current_time` -/
def handle_record_current_time (env : Env) (st : SessionState) (seq : Sequence) :
    SessionState × Response :=
  ({ st with last_recorded_time := some env.now },
   Response.empty_solicited seq Iin.default)

/-- Rust `OutstationSession::handle_restart` -/
def handle_restart (seq : Sequence) (delay : Option RestartDelay) : Response :=
  match delay with
  | none =>
    Response.empty_solicited seq (Iin.default.orIin2 Iin2.NO_FUNC_CODE_SUPPORT)
  | some (.seconds value) =>
    ⟨ResponseHeader.new (ControlField.response seq true true false)
      ResponseFunction.response Iin.default, [RespObject.g52v1 value]⟩
  | some (.milliseconds value) =>
    ⟨ResponseHeader.new (ControlField.response seq true true false)
      ResponseFunction.response Iin.default, [RespObject.g52v2 value]⟩

/-- Rust `OutstationSession::handle_select` -/
def handle_select (env : Env) (st : SessionState) (seq : Sequence) (frame_id : Nat)
    (object_headers : HeaderCollection) : SessionState × Response :=
  if env.controlParseOk object_headers then
    let result := env.selectResult
    let st :=
      if result = CommandStatus.success then
        { st with select := some ⟨seq, frame_id, env.now, env.headersHash object_headers⟩ }
      else st
    let iin :=
      if result = CommandStatus.notSupported then Iin.default.orIin2 Iin2.PARAMETER_ERROR
      else Iin.default
    (st, ⟨ResponseHeader.new (ControlField.single_response seq) ResponseFunction.response iin,
          [RespObject.controlEcho]⟩)
  else
    (st, Response.empty_solicited seq (Iin.default.orIin2 Iin2.PARAMETER_ERROR))

/-- Rust `OutstationSession::handle_operate` -/
def handle_operate (env : Env) (cfg : SessionConfig) (st : SessionState)
    (seq : Sequence) (frame_id : Nat) (object_headers : HeaderCollection) : Response :=
  if env.controlParseOk object_headers then
    let status :=
      match st.select with
      | some s =>
        match env.matchOperate s cfg.select_timeout seq frame_id
            (env.headersHash object_headers) with
        | .error status => status
        | .ok _ => env.operateResult
      | none => CommandStatus.noSelect
    let iin :=
      if status = CommandStatus.notSupported then Iin.default.orIin2 Iin2.PARAMETER_ERROR
      else Iin.default
    ⟨ResponseHeader.new (ControlField.single_response seq) ResponseFunction.response iin,
     [RespObject.controlEcho]⟩
  else
    Response.empty_solicited seq (Iin.default.orIin2 Iin2.PARAMETER_ERROR)

/-- Rust `OutstationSession::handle_direct_operate` -/
def handle_direct_operate (env : Env) (_st : SessionState) (seq : Sequence)
    (object_headers : HeaderCollection) : Response :=
  if env.controlParseOk object_headers then
    let iin :=
      if env.operateResult = CommandStatus.notSupported then
        Iin.default.orIin2 Iin2.PARAMETER_ERROR
      else Iin.default
    ⟨ResponseHeader.new (ControlField.single_response seq) ResponseFunction.response iin,
     [RespObject.controlEcho]⟩
  else
    Response.empty_solicited seq (Iin.default.orIin2 Iin2.PARAMETER_ERROR)

/-- Rust `OutstationSession::handle_freeze` -/
def handle_freeze (env : Env) (seq : Sequence) (object_headers : HeaderCollection)
    (freeze_type : FreezeType) (respond : Bool) : Option Response :=
  let iin := object_headers.foldl
    (fun iin h =>
      match h.details with
      | .allObjects .g20v0 => iin.or (env.freezeCounter freeze_type)
      | .oneByteStartStop _ _ .g20v0 => iin.or (env.freezeCounter freeze_type)
      | .twoByteStartStop _ _ .g20v0 => iin.or (env.freezeCounter freeze_type)
      | _ => iin.orIin2 Iin2.NO_FUNC_CODE_SUPPORT)
    Iin.default
  if respond then some (Response.empty_solicited seq iin) else none

/-- Rust `OutstationSession::handle_enable_or_disable_unsolicited` -/
def handle_enable_or_disable_unsolicited (cfg : SessionConfig) (st : SessionState)
    (enable : Bool) (seq : Sequence) (object_headers : HeaderCollection) :
    SessionState × Response :=
  if ¬cfg.unsolicitedEnabled then
    (st, Response.empty_solicited seq (Iin.default.orIin2 Iin2.NO_FUNC_CODE_SUPPORT))
  else
    let (st, iin2) := object_headers.foldl
      (fun p h =>
        match h.details with
        | .allObjects .g60v2 =>
          ({ p.1 with enabled_unsolicited_classes.class1 := enable }, p.2)
        | .allObjects .g60v3 =>
          ({ p.1 with enabled_unsolicited_classes.class2 := enable }, p.2)
        | .allObjects .g60v4 =>
          ({ p.1 with enabled_unsolicited_classes.class3 := enable }, p.2)
        | _ => (p.1, p.2.or Iin2.NO_FUNC_CODE_SUPPORT))
      (st, ({} : Iin2))
    (st, Response.empty_solicited seq (Iin.default.orIin2 iin2))

/-- Per-function `objects_allowed` flag.  Modelled from the spec: "Any
function with objects_allowed=false receives PARAMETER_ERROR if its body is
non-empty" — the concrete table lives in the external codec. -/
def objects_allowed : FunctionCode → Bool
  | .delayMeasure => false
  | .recordCurrentTime => false
  | .coldRestart => false
  | .warmRestart => false
  | _ => true

/-- Rust `OutstationSession::get_iin2` -/
def get_iin2 (function : FunctionCode) (object_headers : HeaderCollection) : Iin2 :=
  if objects_allowed function then {}
  else if object_headers.isEmpty then {}
  else Iin2.PARAMETER_ERROR

/-- Rust `OutstationSession::handle_non_read`: the per-function-code dispatch. -/
def handle_non_read (env : Env) (cfg : SessionConfig) (st : SessionState)
    (function : FunctionCode) (seq : Sequence) (frame_id : Nat)
    (object_headers : HeaderCollection) : SessionState × Option Response :=
  let (st, result) :=
    match function with
    | .write =>
      let (st, r) := handle_write env st seq object_headers
      (st, some r)
    | .delayMeasure => (st, some (handle_delay_measure env seq))
    | .recordCurrentTime =>
      let (st, r) := handle_record_current_time env st seq
      (st, some r)
    | .coldRestart => (st, some (handle_restart seq env.coldRestart))
    | .warmRestart => (st, some (handle_restart seq env.warmRestart))
    | .select =>
      let (st, r) := handle_select env st seq frame_id object_headers
      (st, some r)
    | .operate => (st, some (handle_operate env cfg st seq frame_id object_headers))
    | .directOperate => (st, some (handle_direct_operate env st seq object_headers))
    | .directOperateNoResponse => (st, none)
    | .immediateFreeze =>
      (st, handle_freeze env seq object_headers FreezeType.immediateFreeze true)
    | .immediateFreezeNoResponse =>
      (st, handle_freeze env seq object_headers FreezeType.immediateFreeze false)
    | .freezeClear =>
      (st, handle_freeze env seq object_headers FreezeType.freezeAndClear true)
    | .freezeClearNoResponse =>
      (st, handle_freeze env seq object_headers FreezeType.freezeAndClear false)
    | .enableUnsolicited =>
      let (st, r) := handle_enable_or_disable_unsolicited cfg st true seq object_headers
      (st, some r)
    | .disableUnsolicited =>
      let (st, r) := handle_enable_or_disable_unsolicited cfg st false seq object_headers
      (st, some r)
    | _ =>
      (st, some (Response.empty_solicited seq (Iin.default.orIin2 Iin2.NO_FUNC_CODE_SUPPORT)))
  match result with
  | some r =>
    (st, some { r with
      header := { r.header with iin := r.header.iin.orIin2 (get_iin2 function object_headers) } })
  | none => (st, none)

/-- Rust `OutstationSession::get_response_iin`, including its side effect of
auto-clearing a non-mandatory broadcast flag. -/
def get_response_iin (env : Env) (st : SessionState) : Iin × SessionState :=
  let iin := Iin.default
  let iin := if st.restart_iin_asserted then iin.orIin1 Iin1.RESTART else iin
  let events_info := env.eventsInfo
  let iin := if events_info.unwritten_classes.class1 then iin.orIin1 Iin1.CLASS_1_EVENTS else iin
  let iin := if events_info.unwritten_classes.class2 then iin.orIin1 Iin1.CLASS_2_EVENTS else iin
  let iin := if events_info.unwritten_classes.class3 then iin.orIin1 Iin1.CLASS_3_EVENTS else iin
  let iin := if events_info.is_overflown then iin.orIin2 Iin2.EVENT_BUFFER_OVERFLOW else iin
  let (iin, st) :=
    match st.last_broadcast_type with
    | some mode =>
      let iin := iin.orIin1 Iin1.BROADCAST
      if mode ≠ BroadcastConfirmMode.mandatory then
        (iin, { st with last_broadcast_type := none })
      else (iin, st)
    | none => (iin, st)
  (iin.or env.appIin, st)

/-- Rust `OutstationSession::write_solicited`: ORs in the response IIN and asks
for an extra confirmation after a mandatory broadcast; the returned response
is what `repeat_solicited` puts on the wire (and what the caller stores). -/
def write_solicited (env : Env) (st : SessionState) (response : Response) :
    Response × SessionState :=
  let (iin, st) := get_response_iin env st
  let response := { response with
    header := { response.header with iin := response.header.iin.or iin } }
  let response :=
    if st.last_broadcast_type = some BroadcastConfirmMode.mandatory then
      if ¬response.header.control.con then
        { response with header := { response.header with
            control := { response.header.control with con := true } } }
      else response
    else response
  (response, st)

/-- Rust `OutstationSession::write_unsolicited`: ORs in the response IIN; the
returned response is what `repeat_unsolicited` puts on the wire. -/
def write_unsolicited (env : Env) (st : SessionState) (response : Response) :
    Response × SessionState :=
  let (iin, st) := get_response_iin env st
  ({ response with header := { response.header with iin := response.header.iin.or iin } }, st)

/-- Rust `OutstationSession::write_read_response`: skip the header, let the
database fill object headers, then backfill the header from
`{complete, need_confirm}`. -/
def write_read_response (env : Env) (fir : Bool) (seq : Sequence) (iin2 : Iin2) :
    Response × Option ResponseSeries :=
  let info := env.dbWrite
  let header := ResponseHeader.new
    (ControlField.response seq fir info.complete info.need_confirm)
    ResponseFunction.response (Iin.default.orIin2 iin2)
  (⟨header, info.payload⟩, info.get_response_series seq)

/-- Rust `OutstationSession::write_first_read_response`: select the request's
object headers against the database, then write the first response. -/
def write_first_read_response (env : Env) (seq : Sequence)
    (object_headers : HeaderCollection) : Response × Option ResponseSeries :=
  let iin2 := env.dbSelect object_headers
  write_read_response env true seq iin2

/-- Rust `OutstationSession::process_broadcast_get_action` (state effects only;
the `BroadcastAction` is reported to the information callback). -/
def process_broadcast_get_action (env : Env) (cfg : SessionConfig)
    (st : SessionState) (request : Request) : SessionState :=
  if ¬cfg.broadcastEnabled then st
  else
    match request.objects with
    | .error _ => st
    | .ok objects =>
      let seq := request.header.control.seq
      match request.header.function with
      | .write => (handle_write env st seq objects).1
      | .directOperateNoResponse => st
      | .immediateFreezeNoResponse => st
      | .freezeClearNoResponse => st
      | .recordCurrentTime => (handle_record_current_time env st seq).1
      | .disableUnsolicited =>
        (handle_enable_or_disable_unsolicited cfg st false seq objects).1
      | .enableUnsolicited =>
        (handle_enable_or_disable_unsolicited cfg st true seq objects).1
      | _ => st

/-- Rust `OutstationSession::process_broadcast` -/
def process_broadcast (env : Env) (cfg : SessionConfig) (st : SessionState)
    (mode : BroadcastConfirmMode) (request : Request) : SessionState :=
  let st := { st with last_broadcast_type := some mode }
  process_broadcast_get_action env cfg st request

/-- Rust `OutstationSession::process_request_from_idle`: classification and
dispatch of one fragment from the idle state; returns the optional
`LastValidRequest` (whose response the caller transmits) and the new state. -/
def process_request_from_idle (env : Env) (cfg : SessionConfig) (st : SessionState)
    (info : FragmentInfo) (request : Request) :
    Option LastValidRequest × SessionState :=
  let seq := request.header.control.seq
  match classify env st info request with
  | .malformedRequest hash err =>
    let response := Response.empty_solicited seq (Iin.default.orIin2 (Iin2.fromParseError err))
    (some (LastValidRequest.new seq hash (some response) none), st)
  | .newRead hash objects =>
    let (response, series) := write_first_read_response env seq objects
    (some (LastValidRequest.new seq hash (some response) series), st)
  | .repeatRead hash _ objects =>
    let (response, series) := write_first_read_response env seq objects
    (some (LastValidRequest.new seq hash (some response) series), st)
  | .newNonRead hash objects =>
    let (st, response) :=
      handle_non_read env cfg st request.header.function seq info.id objects
    (some (LastValidRequest.new seq hash response none), st)
  | .repeatNonRead hash last_response =>
    let st :=
      match st.select with
      | some sel => { st with select := some (sel.update_frame_id info.id) }
      | none => st
    (some (LastValidRequest.new seq hash last_response none), st)
  | .broadcast mode => (none, process_broadcast env cfg st mode request)
  | .solicitedConfirm _ => (none, st)
  | .unsolicitedConfirm _ => (none, st)

/-- The transmission step of `handle_one_request_from_idle`: write the
optional response through `write_solicited`, extend the series after a
mandatory broadcast, and store the `LastValidRequest`.  Returns the
transmitted response (if any) and the new state. -/
def handle_one_request_from_idle (env : Env) (cfg : SessionConfig)
    (st : SessionState) (info : FragmentInfo) (request : Request) :
    Option Response × SessionState :=
  match process_request_from_idle env cfg st info request with
  | (some result, st) =>
    match result.response with
    | some r =>
      let (sent, st) := write_solicited env st r
      let series :=
        if sent.header.control.con ∧ result.series = none then
          some (ResponseSeries.mk sent.header.control.seq true)
        else result.series
      let stored := { result with response := some sent, series := series }
      (some sent, { st with last_valid_request := some stored })
    | none => (none, { st with last_valid_request := some result })
  | (none, st) => (none, st)

/-- Rust `ConfirmAction` -/
inductive ConfirmAction where
  | confirmed
  | newRequest
  | echoLastResponse (response : Option Response)
  | continueWait
deriving DecidableEq, Repr

/-- Rust `Confirm`: outcome of `wait_for_sol_confirm`. -/
inductive Confirm where
  | yes
  | timeout
  | newRequest
deriving DecidableEq, Repr

/-- Rust `OutstationSession::expect_sol_confirm` -/
def expect_sol_confirm (env : Env) (st : SessionState) (ecsn : Sequence)
    (request : Option TransportRequest) : ConfirmAction :=
  match request with
  | none => ConfirmAction.continueWait
  | some .linkLayerMessage => ConfirmAction.continueWait
  | some (.transportError _) => ConfirmAction.newRequest
  | some (.request info req) =>
    match classify env st info req with
    | .malformedRequest _ _ => ConfirmAction.newRequest
    | .newRead _ _ => ConfirmAction.newRequest
    | .repeatRead _ response _ => ConfirmAction.echoLastResponse response
    | .newNonRead _ _ => ConfirmAction.newRequest
    | .repeatNonRead _ _ => ConfirmAction.newRequest
    | .broadcast _ => ConfirmAction.newRequest
    | .solicitedConfirm seq =>
      if seq = ecsn then ConfirmAction.confirmed else ConfirmAction.continueWait
    | .unsolicitedConfirm _ => ConfirmAction.continueWait

/-- Rust `OutstationSession::new_confirm_deadline` -/
def new_confirm_deadline (env : Env) (cfg : SessionConfig) : Nat :=
  env.now + cfg.confirm_timeout

/-- Rust `OutstationSession::new_unsolicited_retry_deadline` -/
def new_unsolicited_retry_deadline (env : Env) (cfg : SessionConfig) : Nat :=
  env.now + cfg.unsolicited_retry_delay

/-- One `read_until` outcome inside `wait_for_sol_confirm`: either the
deadline elapsed or a fragment (possibly none after a partial read) is
available. -/
inductive SolWaitEvent where
  | timeout
  | frag (request : Option TransportRequest)
deriving DecidableEq, Repr

/-- One iteration of the `wait_for_sol_confirm` loop: either it exits with a
`Confirm`, or it keeps waiting with a (possibly restarted) deadline, having
echoed a stored response. -/
inductive SolWaitStep where
  | exit (result : Confirm)
  | next (deadline : Nat) (echoed : Option Response)
deriving DecidableEq, Repr

/-- One iteration of `OutstationSession::wait_for_sol_confirm`. -/
def wait_for_sol_confirm_step (env : Env) (cfg : SessionConfig) (st : SessionState)
    (ecsn : Sequence) (deadline : Nat) (event : SolWaitEvent) : SolWaitStep :=
  match event with
  | .timeout => SolWaitStep.exit Confirm.timeout
  | .frag request =>
    match expect_sol_confirm env st ecsn request with
    | .continueWait => SolWaitStep.next deadline none
    | .confirmed => SolWaitStep.exit Confirm.yes
    | .newRequest => SolWaitStep.exit Confirm.newRequest
    | .echoLastResponse response =>
      SolWaitStep.next (new_confirm_deadline env cfg) response

/-- Rust `UnsolicitedResult` -/
inductive UnsolicitedResult where
  | confirmed
  | timeout
  | returnToIdle
deriving DecidableEq, Repr

/-- Rust `UnsolicitedWaitResult` -/
inductive UnsolicitedWaitResult where
  | timeout
  | readNext
  | complete (result : UnsolicitedResult)
deriving DecidableEq, Repr

/-- Rust `OutstationSession::write_error_response`: empty solicited response with
`NO_FUNC_CODE_SUPPORT` when the bad request's sequence number is known. -/
def write_error_response (env : Env) (st : SessionState)
    (err : TransportRequestError) : List Response × SessionState :=
  let seq :=
    match err with
    | .headerParseError (.unknownFunction seq _) => some seq
    | .headerParseError .insufficientBytes => none
    | .requestValidationError seq _ => some seq
  match seq with
  | some seq =>
    let iin := Iin.default.orIin2 Iin2.NO_FUNC_CODE_SUPPORT
    let (sent, st) := write_solicited env st (Response.empty_solicited seq iin)
    ([sent], st)
  | none => ([], st)

/-- The fragment-processing part of
`OutstationSession::wait_for_unsolicited_confirm` (the deadline check is in
the series loop below).  Returns the wait result, the new state and the
responses transmitted while handling the fragment. -/
def wait_for_unsolicited_confirm_frag (env : Env) (cfg : SessionConfig)
    (st : SessionState) (uns_ecsn : Sequence) (request : Option TransportRequest) :
    UnsolicitedWaitResult × SessionState × List Response :=
  match request with
  | none => (UnsolicitedWaitResult.readNext, st, [])
  | some .linkLayerMessage => (UnsolicitedWaitResult.readNext, st, [])
  | some (.transportError err) =>
    let st := { st with deferred_read := none }
    let (sent, st) := write_error_response env st err
    (UnsolicitedWaitResult.readNext, st, sent)
  | some (.request info req) =>
    match classify env st info req with
    | .unsolicitedConfirm seq =>
      if seq = uns_ecsn then
        (UnsolicitedWaitResult.complete UnsolicitedResult.confirmed,
         { st with last_broadcast_type := none }, [])
      else
        (UnsolicitedWaitResult.readNext, st, [])
    | .solicitedConfirm _ =>
      if st.last_broadcast_type = some BroadcastConfirmMode.mandatory then
        (UnsolicitedWaitResult.readNext, { st with last_broadcast_type := none }, [])
      else
        (UnsolicitedWaitResult.readNext, st, [])
    | .broadcast mode =>
      let st := { st with deferred_read := none }
      (UnsolicitedWaitResult.readNext, process_broadcast env cfg st mode req, [])
    | .malformedRequest _ err =>
      let st := { st with deferred_read := none }
      let seq := req.header.control.seq
      let iin := Iin.default.orIin2 (Iin2.fromParseError err)
      let (sent, st) := write_solicited env st (Response.empty_solicited seq iin)
      (UnsolicitedWaitResult.readNext, st, [sent])
    | .newNonRead hash objects =>
      let st := { st with deferred_read := none }
      let (st, response) :=
        handle_non_read env cfg st req.header.function req.header.control.seq info.id objects
      let (response, st, sent) :=
        match response with
        | some r =>
          let (written, st) := write_solicited env st r
          (some written, st, [written])
        | none => (none, st, [])
      let stored := LastValidRequest.new req.header.control.seq hash response none
      let st := { st with last_valid_request := some stored }
      if req.header.function = FunctionCode.disableUnsolicited then
        (UnsolicitedWaitResult.complete UnsolicitedResult.returnToIdle, st, sent)
      else
        (UnsolicitedWaitResult.readNext, st, sent)
    | .newRead hash headers =>
      let deferred : DeferredReadState := ⟨hash, req.header.control.seq, info, headers⟩
      (UnsolicitedWaitResult.readNext, { st with deferred_read := some deferred }, [])
    | .repeatRead hash _ headers =>
      let deferred : DeferredReadState := ⟨hash, req.header.control.seq, info, headers⟩
      (UnsolicitedWaitResult.readNext, { st with deferred_read := some deferred }, [])
    | .repeatNonRead _ last_response =>
      let sent :=
        match last_response with
        | some r => [r]
        | none => []
      (UnsolicitedWaitResult.readNext, { st with deferred_read := none }, sent)

/-- Rust `RetryCounter::decrement`: returns whether to retry and the new counter
(`None` is unbounded; a zero counter refuses and stays zero). -/
def RetryCounter.decrement : Option Nat → Bool × Option Nat
  | none => (true, none)
  | some x => if x = 0 then (false, some 0) else (true, some (x - 1))

/-- One observed outcome of `wait_for_unsolicited_confirm` as consumed by
the series loop; a timeout records whether `deferred_read.is_set()` held at
that moment. -/
inductive UWaitOutcome where
  | readNext
  | complete (result : UnsolicitedResult)
  | timeout (deferred_is_set : Bool)
deriving DecidableEq, Repr

/-- One iteration of the `perform_unsolicited_response_series` loop: either
the series ends with an `UnsolicitedResult`, or it continues with a new
deadline and retry counter, possibly retransmitting the same payload. -/
inductive USeriesStep where
  | uexit (result : UnsolicitedResult)
  | unext (deadline : Nat) (retries : Option Nat) (retransmit : Bool)
deriving DecidableEq, Repr

/-- One iteration of `OutstationSession::perform_unsolicited_response_series`'s
loop. -/
def unsol_series_iter (env : Env) (cfg : SessionConfig) (deadline : Nat)
    (retries : Option Nat) (outcome : UWaitOutcome) : USeriesStep :=
  match outcome with
  | .readNext => USeriesStep.unext deadline retries false
  | .complete result => USeriesStep.uexit result
  | .timeout deferred_is_set =>
    let (retry, retries) := RetryCounter.decrement retries
    let retry := if deferred_is_set then false else retry
    if retry then
      USeriesStep.unext (new_confirm_deadline env cfg) retries true
    else
      USeriesStep.uexit UnsolicitedResult.timeout

/-- The `perform_unsolicited_response_series` loop over a finite list of
wait outcomes.  Returns the series result (`none` when the outcomes ran out
with the session still waiting) and the number of retransmissions of the
payload performed by `repeat_unsolicited`. -/
def unsol_series_loop (env : Env) (cfg : SessionConfig) (deadline : Nat)
    (retries : Option Nat) : List UWaitOutcome → Option UnsolicitedResult × Nat
  | [] => (none, 0)
  | outcome :: rest =>
    match unsol_series_iter env cfg deadline retries outcome with
    | .uexit result => (some result, 0)
    | .unext deadline retries retransmit =>
      let (result, n) := unsol_series_loop env cfg deadline retries rest
      (result, if retransmit then n + 1 else n)

/-- Rust `OutstationSession::perform_unsolicited_response_series`: the initial
transmission followed by the confirm-wait loop.  The returned count is the
total number of times the payload was written to the wire. -/
def perform_unsolicited_response_series (env : Env) (cfg : SessionConfig)
    (is_null : Bool) (outcomes : List UWaitOutcome) :
    Option UnsolicitedResult × Nat :=
  let retry_count := cfg.max_unsolicited_retries
  let retry_count := if is_null then some 0 else retry_count
  let (result, n) :=
    unsol_series_loop env cfg (new_confirm_deadline env cfg) retry_count outcomes
  (result, n + 1)

/-! ### Link-layer reader (`src/src/link/reader.rs`) -/

/-- Rust `link::constant::MAX_LINK_FRAME_LENGTH` (10-byte header plus sixteen
16-byte blocks with CRCs: 292 bytes). -/
def MAX_LINK_FRAME_LENGTH : Nat := 292

/-- Rust `std::io::ErrorKind` values relevant to the reader. -/
inductive ErrorKind where
  | unexpectedEof
  | otherKind (code : Nat)
deriving DecidableEq, Repr

/-- Rust `crate::error::Error`: either an I/O error or a frame-parser error. -/
inductive LinkError where
  | ioError (kind : ErrorKind)
  | parseFailure (code : Nat)
deriving DecidableEq, Repr

/-- Result of one `parser.parse(&mut cursor, payload)` call: a complete
frame header (with the bytes consumed), a request for more bytes (with the
bytes consumed), or a propagated parse error. -/
inductive ParseResult where
  | frame (header : Nat) (consumed : Nat)
  | needMore (consumed : Nat)
  | parseFailure (code : Nat)
deriving DecidableEq, Repr

/-- Rust `Reader`'s buffer bookkeeping: the region `[bpos, epos)` of a fixed
buffer holds unconsumed bytes (`begin`/`end` in the source; `end` is a Lean
keyword). -/
structure ReaderState where
  bpos : Nat
  epos : Nat
  buffer : List Nat
deriving DecidableEq, Repr

/-- Rust `self.buffer.copy_within(self.begin..self.end, 0)` followed by the
index updates: the live region moves to offset 0, bytes beyond it keep
their old values. -/
def ReaderState.compact (st : ReaderState) : ReaderState :=
  let live := (st.buffer.drop st.bpos).take (st.epos - st.bpos)
  { bpos := 0, epos := st.epos - st.bpos,
    buffer := live ++ st.buffer.drop (st.epos - st.bpos) }

/-- Overwrite `buffer[pos..pos+data.length)` with `data`. -/
def writeAt (buffer : List Nat) (pos : Nat) (data : List Nat) : List Nat :=
  buffer.take pos ++ data ++ buffer.drop (pos + data.length)

/-- The `if self.begin == self.end { reset both to zero }` step at the top
of the read loop. -/
def ReaderState.normalize (st : ReaderState) : ReaderState :=
  if st.bpos = st.epos then { st with bpos := 0, epos := 0 } else st

/-- The readable portion `&self.buffer[self.begin..self.end]`. -/
def ReaderState.avail (st : ReaderState) : List Nat :=
  (st.buffer.drop st.bpos).take (st.epos - st.bpos)

/-- Rust `self.begin += num_consumed`, then the compaction when the buffer is
full. -/
def ReaderState.afterConsume (st : ReaderState) (consumed : Nat) : ReaderState :=
  let st := { st with bpos := st.bpos + consumed }
  if st.epos = MAX_LINK_FRAME_LENGTH then st.compact else st

/-- Store `count` bytes of `chunk` at `self.end` and advance `self.end`. -/
def ReaderState.fill (st : ReaderState) (chunk : List Nat) (count : Nat) : ReaderState :=
  { st with buffer := writeAt st.buffer st.epos (chunk.take count),
            epos := st.epos + count }

/-- Rust `Reader::read`.  The frame parser is abstracted as a state machine
`parse` over an arbitrary state type (the `Parser` lives in an external
module); the underlying I/O is the list `chunks` of byte blocks successive
`io.read` calls deliver, each truncated to the free space of the buffer —
an empty block is a zero-byte read (EOF).  Returns `none` when the chunks
ran out with the reader still awaiting bytes, paired with the list of byte
counts the underlying reads returned. -/
def reader_read {σ : Type} (parse : σ → List Nat → σ × ParseResult)
    (ps : σ) (st : ReaderState) (chunks : List (List Nat)) :
    Option (Except LinkError Nat) × List Nat :=
  match parse ps st.normalize.avail with
  | (_, .parseFailure code) => (some (Except.error (LinkError.parseFailure code)), [])
  | (_, .frame header _) => (some (Except.ok header), [])
  | (ps, .needMore consumed) =>
    let st := st.normalize.afterConsume consumed
    match chunks with
    | [] => (none, [])
    | chunk :: rest =>
      let count := min chunk.length (MAX_LINK_FRAME_LENGTH - st.epos)
      if count = 0 then
        (some (Except.error (LinkError.ioError ErrorKind.unexpectedEof)), [0])
      else
        let (result, counts) := reader_read parse ps (st.fill chunk count) rest
        (result, count :: counts)

/-! ### Theorems -/

theorem Iin2.or_empty (a : Iin2) : a.or {} = a := by
  rcases a with ⟨a1, a2, a3, a4, a5, a6⟩
  simp [Iin2.or]

theorem Iin.orIin2_empty (a : Iin) : a.orIin2 {} = a := by
  rcases a with ⟨a1, a2⟩
  simp [Iin.orIin2, Iin2.or_empty]

/-- Claim C8: `OctetString::new(v)` fails with `ZeroLength` on length 0,
fails with `MoreThan255Octets` on length above 255, and succeeds for every
length from 1 through 255, in which case `value()` returns exactly the
bytes of `v`. -/
theorem octet_string_new_spec (v : List Nat) :
    (v.length = 0 → OctetString.new v = Except.error OctetStringError.zeroLength) ∧
    (v.length > 255 → OctetString.new v = Except.error OctetStringError.moreThan255Octets) ∧
    (1 ≤ v.length → v.length ≤ 255 →
      ∃ o, OctetString.new v = Except.ok o ∧ o.getValue = v) := by
  have hnew : OctetString.new v =
      if v.length = 0 then Except.error OctetStringError.zeroLength
      else if v.length > 255 then Except.error OctetStringError.moreThan255Octets
      else Except.ok ⟨v ++ List.replicate (255 - v.length) 0, v.length⟩ := rfl
  refine ⟨fun h0 => ?_, fun hbig => ?_, fun h1 h255 => ?_⟩
  · rw [hnew, if_pos h0]
  · have hne : ¬v.length = 0 := by omega
    rw [hnew, if_neg hne, if_pos hbig]
  · have hne : ¬v.length = 0 := by omega
    have hle : ¬v.length > 255 := by omega
    refine ⟨⟨v ++ List.replicate (255 - v.length) 0, v.length⟩, ?_, ?_⟩
    · rw [hnew, if_neg hne, if_neg hle]
    · show (v ++ List.replicate (255 - v.length) 0).take v.length = v
      exact List.take_left v _

/-- Witness for C8 at lengths 0, 256, and 3. -/
theorem octet_string_new_witness :
    OctetString.new ([] : List Nat) = Except.error OctetStringError.zeroLength ∧
    OctetString.new (List.replicate 256 0) = Except.error OctetStringError.moreThan255Octets ∧
    ∃ o, OctetString.new [1, 2, 3] = Except.ok o ∧ o.getValue = [1, 2, 3] :=
  ⟨(octet_string_new_spec []).1 (by decide),
   (octet_string_new_spec (List.replicate 256 0)).2.1
     (by rw [List.length_replicate]; omega),
   (octet_string_new_spec [1, 2, 3]).2.2 (by decide) (by decide)⟩

/-- Claim C7: `RestartTask::handle` completes with `Duration::from_secs(t)`
for exactly one count header of Group52Var1 with a single value `t`, with
`Duration::from_millis(t)` for a single Group52Var2, with
`UnexpectedResponseHeaders` for every other parsed shape, and with
`MalformedResponse(err)` when the response objects fail to parse. -/
theorem restart_task_handle_spec (response : MasterResponse) :
    RestartTask.handle response = restartHandleSpec response := by
  rcases response with ⟨objects⟩
  cases objects with
  | error err => rfl
  | ok headers =>
    match headers with
    | [] => rfl
    | _ :: _ :: _ => rfl
    | [⟨d⟩] =>
      cases d with
      | allObjects v => rfl
      | oneByteStartStop a b v => rfl
      | twoByteStartStop a b v => rfl
      | oneByteCount v =>
        cases v with
        | g50v1 vals => rfl
        | g50v3 vals => rfl
        | otherCount g va => rfl
        | g52v1 vals =>
          match vals with
          | [] => rfl
          | [x] => rfl
          | _ :: _ :: _ => rfl
        | g52v2 vals =>
          match vals with
          | [] => rfl
          | [x] => rfl
          | _ :: _ :: _ => rfl
      | twoByteCount v =>
        cases v with
        | g50v1 vals => rfl
        | g50v3 vals => rfl
        | otherCount g va => rfl
        | g52v1 vals =>
          match vals with
          | [] => rfl
          | [x] => rfl
          | _ :: _ :: _ => rfl
        | g52v2 vals =>
          match vals with
          | [] => rfl
          | [x] => rfl
          | _ :: _ :: _ => rfl

/-- Claim C6: a COLD/WARM restart delegates to the application for the
`RestartDelay`; `None` yields an empty solicited response with IIN2
NO_FUNC_CODE_SUPPORT, `Seconds(v)` one Group52Var1 with time `v`, and
`Milliseconds(v)` one Group52Var2 with time `v`. -/
theorem handle_restart_spec (env : Env) (cfg : SessionConfig) (st : SessionState)
    (seq : Sequence) (frame_id : Nat) (v : Nat) :
    handle_restart seq none =
      Response.empty_solicited seq (Iin.default.orIin2 Iin2.NO_FUNC_CODE_SUPPORT) ∧
    handle_restart seq (some (RestartDelay.seconds v)) =
      ⟨ResponseHeader.new (ControlField.response seq true true false)
        ResponseFunction.response Iin.default, [RespObject.g52v1 v]⟩ ∧
    handle_restart seq (some (RestartDelay.milliseconds v)) =
      ⟨ResponseHeader.new (ControlField.response seq true true false)
        ResponseFunction.response Iin.default, [RespObject.g52v2 v]⟩ ∧
    handle_non_read env cfg st FunctionCode.coldRestart seq frame_id [] =
      (st, some (handle_restart seq env.coldRestart)) ∧
    handle_non_read env cfg st FunctionCode.warmRestart seq frame_id [] =
      (st, some (handle_restart seq env.warmRestart)) := by
  refine ⟨rfl, rfl, rfl, ?_, ?_⟩
  · simp only [handle_non_read]
    cases henv : env.coldRestart with
    | none => simp [handle_restart, get_iin2, objects_allowed, Iin.orIin2_empty]
    | some d =>
      cases d <;>
        simp [handle_restart, get_iin2, objects_allowed, Iin.orIin2_empty]
  · simp only [handle_non_read]
    cases henv : env.warmRestart with
    | none => simp [handle_restart, get_iin2, objects_allowed, Iin.orIin2_empty]
    | some d =>
      cases d <;>
        simp [handle_restart, get_iin2, objects_allowed, Iin.orIin2_empty]

/-- Claim C10: in `handle_g50v3`, with exactly one Group50Var3 object, a
prior recorded instant, and no overflow in the delay addition,
`last_recorded_time` is cleared no matter what the application's
`write_absolute_time` returns, and a byte-identical retry then gets
PARAMETER_ERROR for lack of a recorded time. -/
theorem handle_g50v3_consumes_recorded_time (env env2 : Env) (st : SessionState)
    (v : Group50Var3) (last : Nat)
    (h1 : st.last_recorded_time = some last)
    (h2 : last ≤ env.now)
    (h3 : v.time + (env.now - last) ≤ Timestamp.MAX) :
    (handle_g50v3 env st [v]).1.last_recorded_time = none ∧
    handle_g50v3 env2 (handle_g50v3 env st [v]).1 [v] =
      ((handle_g50v3 env st [v]).1, Iin2.PARAMETER_ERROR) := by
  have hstep : (handle_g50v3 env st [v]).1 = { st with last_recorded_time := none } := by
    simp only [handle_g50v3, single, h1, checked_duration_since, if_pos h2,
      Timestamp.checked_add, if_pos h3]
    cases env.writeAbsoluteTime (v.time + (env.now - last)) <;> rfl
  refine ⟨by rw [hstep], ?_⟩
  rw [hstep]
  rfl

/-- Concrete environment used by the witnesses: the digest is an arbitrary
total function, the clock reads 100, and the application rejects time
writes with `NotSupported`. -/
def envW : Env where
  xxh64 := fun raw => raw.foldl (fun a b => a * 256 + b) 7
  headersHash := fun h => h.length
  now := 100
  writeAbsoluteTime := fun _ => WriteTimeResult.notSupported
  coldRestart := some (RestartDelay.seconds 2)
  warmRestart := none
  processingDelayMs := 0
  appIin := {}
  freezeCounter := fun _ => {}
  eventsInfo := ⟨⟨false, false, false⟩, false⟩
  dbSelect := fun _ => {}
  dbWrite := ⟨[RespObject.dbData 1], false, true⟩
  controlParseOk := fun _ => true
  selectResult := CommandStatus.success
  operateResult := CommandStatus.success
  matchOperate := fun _ _ _ _ _ => Except.ok ()

/-- Concrete session state used by the witnesses: freshly constructed, with
a recorded instant at 40. -/
def stW : SessionState := { SessionState.new with last_recorded_time := some 40 }

/-- Witness for C10 with a single `Group50Var3 { time = 5 }`, recorded
instant 40, clock 100, and an application that rejects the write. -/
theorem handle_g50v3_witness :
    (handle_g50v3 envW stW [⟨5⟩]).1.last_recorded_time = none ∧
    handle_g50v3 envW (handle_g50v3 envW stW [⟨5⟩]).1 [⟨5⟩] =
      ((handle_g50v3 envW stW [⟨5⟩]).1, Iin2.PARAMETER_ERROR) :=
  handle_g50v3_consumes_recorded_time envW envW stW ⟨5⟩ 40 rfl (by decide)
    (by decide)

/-- The series loop performs at most `n` retransmissions when the retry
counter starts at `Some(n)`. -/
theorem unsol_series_loop_tx_le (env : Env) (cfg : SessionConfig) :
    ∀ (outcomes : List UWaitOutcome) (d n : Nat),
      (unsol_series_loop env cfg d (some n) outcomes).2 ≤ n := by
  intro outcomes
  induction outcomes with
  | nil =>
    intro d n
    simp [unsol_series_loop]
  | cons outcome rest ih =>
    intro d n
    cases outcome with
    | readNext =>
      simpa [unsol_series_loop, unsol_series_iter] using ih d n
    | complete r =>
      simp [unsol_series_loop, unsol_series_iter]
    | timeout deferred =>
      by_cases hn : n = 0
      · subst hn
        cases deferred <;>
          simp [unsol_series_loop, unsol_series_iter, RetryCounter.decrement]
      · cases deferred
        · have hrec := ih (new_confirm_deadline env cfg) (n - 1)
          simp only [unsol_series_loop, unsol_series_iter, RetryCounter.decrement,
            if_neg hn, if_true, if_false, Bool.false_eq_true]
          omega
        · simp [unsol_series_loop, unsol_series_iter, RetryCounter.decrement, hn]

/-- Claim C5: with `max_unsolicited_retries = Some(N)` an unsolicited series
writes its payload at most N+1 times before giving up; a NULL unsolicited
response is written at most once per pass (its retry counter is exactly 0);
and a confirm timeout with a deferred READ pending ends the series with
`Timeout` and no further retransmission, whatever the remaining counter. -/
theorem unsolicited_retry_bound (env : Env) (cfg : SessionConfig) (N : Nat)
    (outcomes : List UWaitOutcome)
    (hN : cfg.max_unsolicited_retries = some N) :
    (perform_unsolicited_response_series env cfg false outcomes).2 ≤ N + 1 ∧
    (perform_unsolicited_response_series env cfg true outcomes).2 ≤ 1 ∧
    (∀ (d : Nat) (r : Option Nat) (rest : List UWaitOutcome),
      unsol_series_loop env cfg d r (UWaitOutcome.timeout true :: rest) =
        (some UnsolicitedResult.timeout, 0)) := by
  refine ⟨?_, ?_, ?_⟩
  · have h := unsol_series_loop_tx_le env cfg outcomes (new_confirm_deadline env cfg) N
    simp only [perform_unsolicited_response_series, hN, if_false, Bool.false_eq_true]
    omega
  · have h := unsol_series_loop_tx_le env cfg outcomes (new_confirm_deadline env cfg) 0
    simp only [perform_unsolicited_response_series, if_true]
    omega
  · intro d r rest
    rcases r with _ | x
    · simp [unsol_series_loop, unsol_series_iter, RetryCounter.decrement]
    · by_cases hx : x = 0 <;>
        simp [unsol_series_loop, unsol_series_iter, RetryCounter.decrement, hx]

/-- Concrete configuration used by the witnesses: confirm timeout 10,
select timeout 20, broadcast and unsolicited enabled, two unsolicited
retries, retry delay 5. -/
def cfgW : SessionConfig := ⟨10, 20, true, true, some 2, 5⟩

/-- Witness for C5 with N = 2 and three consecutive confirm timeouts. -/
theorem unsolicited_retry_bound_witness :
    (perform_unsolicited_response_series envW cfgW false
      [UWaitOutcome.timeout false, UWaitOutcome.timeout false,
       UWaitOutcome.timeout false]).2 ≤ 2 + 1 ∧
    (perform_unsolicited_response_series envW cfgW true
      [UWaitOutcome.timeout false, UWaitOutcome.timeout false,
       UWaitOutcome.timeout false]).2 ≤ 1 ∧
    (∀ (d : Nat) (r : Option Nat) (rest : List UWaitOutcome),
      unsol_series_loop envW cfgW d r (UWaitOutcome.timeout true :: rest) =
        (some UnsolicitedResult.timeout, 0)) :=
  unsolicited_retry_bound envW cfgW 2
    [UWaitOutcome.timeout false, UWaitOutcome.timeout false,
     UWaitOutcome.timeout false] rfl

/-- Claim C9: `Reader::read` reports an `UnexpectedEof` I/O error exactly
when an underlying byte read returned 0 bytes — a zero-byte read
immediately yields the error (never a frame, never a retry), and reads
that all return at least one byte never produce it. -/
theorem reader_read_eof_iff {σ : Type} (parse : σ → List Nat → σ × ParseResult)
    (ps : σ) (st : ReaderState) (chunks : List (List Nat)) :
    (reader_read parse ps st chunks).1 =
        some (Except.error (LinkError.ioError ErrorKind.unexpectedEof)) ↔
      0 ∈ (reader_read parse ps st chunks).2 := by
  induction chunks generalizing ps st with
  | nil =>
    rw [reader_read]
    rcases hp : parse ps st.normalize.avail with ⟨ps2, pr⟩
    cases pr <;> simp
  | cons chunk rest ih =>
    rw [reader_read]
    rcases hp : parse ps st.normalize.avail with ⟨ps2, pr⟩
    cases pr with
    | frame header c => simp
    | parseFailure c => simp
    | needMore consumed =>
      dsimp only
      by_cases h0 :
          min chunk.length
            (MAX_LINK_FRAME_LENGTH - (st.normalize.afterConsume consumed).epos) = 0
      · rw [if_pos h0]
        simp
      · rw [if_neg h0]
        rcases hrr : reader_read parse ps2
            ((st.normalize.afterConsume consumed).fill chunk
              (min chunk.length
                (MAX_LINK_FRAME_LENGTH - (st.normalize.afterConsume consumed).epos)))
            rest with ⟨result, counts⟩
        have ihh := ih ps2
          ((st.normalize.afterConsume consumed).fill chunk
            (min chunk.length
              (MAX_LINK_FRAME_LENGTH - (st.normalize.afterConsume consumed).epos)))
        rw [hrr] at ihh
        dsimp only at ihh ⊢
        rw [ihh]
        simp only [List.mem_cons]
        constructor
        · intro h
          exact Or.inr h
        · rintro (h | h)
          · exact absurd h.symm h0
          · exact h

/-- Claim C3: in both SolConfirmWait and UnsolConfirmWait, a CONFIRM whose
sequence number differs from the expected confirm sequence number never
advances the wait state and never restarts the confirm-timeout deadline:
the session continues waiting with the same deadline (and transmits
nothing). -/
theorem wrong_seq_confirm_ignored (env : Env) (cfg : SessionConfig)
    (st : SessionState) (ecsn : Sequence) (deadline : Nat) (retries : Option Nat)
    (info : FragmentInfo) (req : Request)
    (hconf : req.header.function = FunctionCode.confirm)
    (hseq : req.header.control.seq ≠ ecsn) :
    wait_for_sol_confirm_step env cfg st ecsn deadline
        (SolWaitEvent.frag (some (TransportRequest.request info req))) =
      SolWaitStep.next deadline none ∧
    (wait_for_unsolicited_confirm_frag env cfg st ecsn
        (some (TransportRequest.request info req))).1 =
      UnsolicitedWaitResult.readNext ∧
    (wait_for_unsolicited_confirm_frag env cfg st ecsn
        (some (TransportRequest.request info req))).2.2 = [] ∧
    unsol_series_iter env cfg deadline retries UWaitOutcome.readNext =
      USeriesStep.unext deadline retries false := by
  cases hu : req.header.control.uns
  · have hcl : classify env st info req =
        FragmentType.solicitedConfirm req.header.control.seq := by
      simp [classify, hconf, hu]
    refine ⟨?_, ?_, ?_, rfl⟩
    · simp [wait_for_sol_confirm_step, expect_sol_confirm, hcl, hseq]
    · simp only [wait_for_unsolicited_confirm_frag, hcl]
      split <;> rfl
    · simp only [wait_for_unsolicited_confirm_frag, hcl]
      split <;> rfl
  · have hcl : classify env st info req =
        FragmentType.unsolicitedConfirm req.header.control.seq := by
      simp [classify, hconf, hu]
    refine ⟨?_, ?_, ?_, rfl⟩
    · simp [wait_for_sol_confirm_step, expect_sol_confirm, hcl, hseq]
    · simp [wait_for_unsolicited_confirm_frag, hcl, hseq]
    · simp [wait_for_unsolicited_confirm_frag, hcl, hseq]

/-- Concrete request used by witnesses: a solicited CONFIRM with seq 3. -/
def reqConfirmW : Request :=
  ⟨⟨⟨true, true, false, false, 3⟩, FunctionCode.confirm⟩, [1, 2], Except.ok []⟩

/-- Concrete fragment info used by witnesses: id 0, not broadcast. -/
def infoW : FragmentInfo := ⟨0, none⟩

/-- Witness for C3: a CONFIRM with seq 3 while ecsn is 5, in both waits. -/
theorem wrong_seq_confirm_ignored_witness :
    wait_for_sol_confirm_step envW cfgW SessionState.new 5 77
        (SolWaitEvent.frag (some (TransportRequest.request infoW reqConfirmW))) =
      SolWaitStep.next 77 none ∧
    (wait_for_unsolicited_confirm_frag envW cfgW SessionState.new 5
        (some (TransportRequest.request infoW reqConfirmW))).1 =
      UnsolicitedWaitResult.readNext ∧
    (wait_for_unsolicited_confirm_frag envW cfgW SessionState.new 5
        (some (TransportRequest.request infoW reqConfirmW))).2.2 = [] ∧
    unsol_series_iter envW cfgW 77 (some 1) UWaitOutcome.readNext =
      USeriesStep.unext 77 (some 1) false :=
  wrong_seq_confirm_ignored envW cfgW SessionState.new 5 77 (some 1) infoW
    reqConfirmW rfl (by decide)

/-- Rust `get_response_iin` keeps the broadcast flag exactly when it was the
mandatory mode. -/
theorem get_response_iin_broadcast (env : Env) (st : SessionState) :
    ((get_response_iin env st).2.last_broadcast_type =
        some BroadcastConfirmMode.mandatory) ↔
      st.last_broadcast_type = some BroadcastConfirmMode.mandatory := by
  unfold get_response_iin
  rcases hb : st.last_broadcast_type with _ | mode
  · simp [hb]
  · cases mode <;> simp [hb]

/-- The IIN bits `get_response_iin` ORs into a response depend only on the
restart flag and the broadcast memory of the state. -/
theorem get_response_iin_fst_congr (env : Env) (st st2 : SessionState)
    (hf : st2.restart_iin_asserted = st.restart_iin_asserted)
    (hbt : st2.last_broadcast_type = st.last_broadcast_type) :
    (get_response_iin env st2).1 = (get_response_iin env st).1 := by
  unfold get_response_iin
  rw [hf, hbt]
  rcases hb : st.last_broadcast_type with _ | mode
  · rfl
  · cases mode <;> rfl

/-- When the stored response already carries every IIN bit the environment
would OR in, and already has CON set if a mandatory broadcast is pending,
`write_solicited` transmits it byte-for-byte unchanged. -/
theorem write_solicited_absorbed (env : Env) (st : SessionState) (r : Response)
    (h1 : r.header.iin.or (get_response_iin env st).1 = r.header.iin)
    (h2 : st.last_broadcast_type = some BroadcastConfirmMode.mandatory →
      r.header.control.con = true) :
    (write_solicited env st r).1 = r := by
  have hb := get_response_iin_broadcast env st
  unfold write_solicited
  rcases hg : get_response_iin env st with ⟨iin, st2⟩
  rw [hg] at h1 hb
  dsimp only at h1 hb ⊢
  have hupd : ({ r with header := { r.header with iin := r.header.iin.or iin } }) = r := by
    rw [h1]
  rw [hupd]
  by_cases hm : st2.last_broadcast_type = some BroadcastConfirmMode.mandatory
  · rw [if_pos hm, if_neg (by simp [h2 (hb.mp hm)])]
  · rw [if_neg hm]

/-- A fragment whose seq and hash match `last_valid_request` classifies as a
repeat (READ or non-READ according to its function code). -/
theorem classify_repeated (env : Env) (st : SessionState) (info : FragmentInfo)
    (req : Request) (last : LastValidRequest) (objs : HeaderCollection)
    (hlvr : st.last_valid_request = some last)
    (hseq : last.seq = req.header.control.seq)
    (hhash : last.request_hash = env.xxh64 req.raw_fragment)
    (hconf : req.header.function ≠ FunctionCode.confirm)
    (hbc : info.broadcast = none)
    (hobj : req.objects = Except.ok objs) :
    classify env st info req =
      (if req.header.function = FunctionCode.read then
        FragmentType.repeatRead (env.xxh64 req.raw_fragment) last.response objs
       else
        FragmentType.repeatNonRead (env.xxh64 req.raw_fragment) last.response) := by
  simp [classify, hconf, hbc, hobj, hlvr, hseq, hhash]

/-- Claim C1 (amended): a duplicate request (same seq, same xxh64 hash as
`last_valid_request`) is answered by retransmitting the stored response
rather than composing a new one: a duplicate non-READ from idle passes the
stored response unmodified to the solicited transmit path — which ORs in
the current IIN environment, so the bytes on the wire equal the stored
bytes exactly when that environment is unchanged since the response was
stored — and a duplicate READ during SolConfirmWait re-sends the prior
response byte-for-byte unmodified and restarts the confirm timer. -/
theorem duplicate_request_echo (env : Env) (cfg : SessionConfig)
    (st : SessionState) (last : LastValidRequest) (info : FragmentInfo)
    (req : Request) (r : Response) (objs : HeaderCollection)
    (ecsn : Sequence) (deadline : Nat)
    (hlvr : st.last_valid_request = some last)
    (hseq : last.seq = req.header.control.seq)
    (hhash : last.request_hash = env.xxh64 req.raw_fragment)
    (hconf : req.header.function ≠ FunctionCode.confirm)
    (hbc : info.broadcast = none)
    (hobj : req.objects = Except.ok objs)
    (hresp : last.response = some r) :
    (req.header.function ≠ FunctionCode.read →
      (process_request_from_idle env cfg st info req).1 =
        some (LastValidRequest.new req.header.control.seq
          (env.xxh64 req.raw_fragment) (some r) none) ∧
      ((r.header.iin.or (get_response_iin env st).1 = r.header.iin ∧
        (st.last_broadcast_type = some BroadcastConfirmMode.mandatory →
          r.header.control.con = true)) →
        (handle_one_request_from_idle env cfg st info req).1 = some r)) ∧
    (req.header.function = FunctionCode.read →
      expect_sol_confirm env st ecsn
          (some (TransportRequest.request info req)) =
        ConfirmAction.echoLastResponse (some r) ∧
      wait_for_sol_confirm_step env cfg st ecsn deadline
          (SolWaitEvent.frag (some (TransportRequest.request info req))) =
        SolWaitStep.next (new_confirm_deadline env cfg) (some r)) := by
  have hcl := classify_repeated env st info req last objs hlvr hseq hhash hconf hbc hobj
  constructor
  · intro hnr
    rw [if_neg hnr] at hcl
    have hproc : process_request_from_idle env cfg st info req =
        (some (LastValidRequest.new req.header.control.seq
          (env.xxh64 req.raw_fragment) (some r) none),
         match st.select with
         | some sel => { st with select := some (sel.update_frame_id info.id) }
         | none => st) := by
      simp [process_request_from_idle, hcl, hresp]
    refine ⟨by rw [hproc], fun ⟨habs, hcon⟩ => ?_⟩
    have hst2 : ∀ st2 : SessionState,
        st2.restart_iin_asserted = st.restart_iin_asserted →
        st2.last_broadcast_type = st.last_broadcast_type →
        (write_solicited env st2 r).1 = r := by
      intro st2 hf hbt
      apply write_solicited_absorbed
      · rw [get_response_iin_fst_congr env st st2 hf hbt]
        exact habs
      · rw [hbt]
        exact hcon
    simp only [handle_one_request_from_idle, hproc]
    rcases hsel : st.select with _ | sel
    · simp only [hsel, LastValidRequest.new]
      have hws := hst2 st rfl rfl
      simp [hws]
    · simp only [hsel, LastValidRequest.new]
      have hws := hst2 { st with select := some (sel.update_frame_id info.id) } rfl rfl
      simp [hws]
  · intro hr
    rw [if_pos hr] at hcl
    refine ⟨?_, ?_⟩
    · simp [expect_sol_confirm, hcl, hresp]
    · simp [wait_for_sol_confirm_step, expect_sol_confirm, hcl, hresp]

/-- Concrete stored response used by the C1/C2 witnesses (it already
carries the RESTART IIN bit that the fresh environment would OR in). -/
def rW : Response :=
  ⟨ResponseHeader.new (ControlField.response 3 true true false)
    ResponseFunction.response ⟨{ restart := true }, {}⟩, []⟩

/-- Concrete `LastValidRequest` used by witnesses: seq 3, hash 1801
(= `envW.xxh64 [9]`), storing `rW`. -/
def lastW : LastValidRequest := ⟨3, 1801, some rW, none⟩

/-- Fresh session state holding `lastW`. -/
def stC1 : SessionState := { SessionState.new with last_valid_request := some lastW }

/-- A duplicate non-READ (WRITE) fragment: seq 3, raw bytes `[9]`. -/
def reqC1N : Request :=
  ⟨⟨⟨true, true, false, false, 3⟩, FunctionCode.write⟩, [9], Except.ok []⟩

/-- A duplicate READ fragment: seq 3, raw bytes `[9]`. -/
def reqC1R : Request :=
  ⟨⟨⟨true, true, false, false, 3⟩, FunctionCode.read⟩, [9], Except.ok []⟩

/-- Witness for C1: the duplicate WRITE from idle echoes `rW` exactly, and
the duplicate READ during SolConfirmWait echoes `rW` and restarts the
confirm deadline. -/
theorem duplicate_request_echo_witness :
    (process_request_from_idle envW cfgW stC1 infoW reqC1N).1 =
      some (LastValidRequest.new 3 1801 (some rW) none) ∧
    (handle_one_request_from_idle envW cfgW stC1 infoW reqC1N).1 = some rW ∧
    expect_sol_confirm envW stC1 5 (some (TransportRequest.request infoW reqC1R)) =
      ConfirmAction.echoLastResponse (some rW) ∧
    wait_for_sol_confirm_step envW cfgW stC1 5 77
        (SolWaitEvent.frag (some (TransportRequest.request infoW reqC1R))) =
      SolWaitStep.next (new_confirm_deadline envW cfgW) (some rW) := by
  have hN := duplicate_request_echo envW cfgW stC1 lastW infoW reqC1N rW [] 5 77
    rfl rfl rfl (by decide) rfl rfl rfl
  have hR := duplicate_request_echo envW cfgW stC1 lastW infoW reqC1R rW [] 5 77
    rfl rfl rfl (by decide) rfl rfl rfl
  refine ⟨(hN.1 (by decide)).1, (hN.1 (by decide)).2 ⟨by decide, by decide⟩,
    (hR.2 rfl).1, (hR.2 rfl).2⟩

/-- The witness environment after class-1 events have arrived: the
response-IIN environment now differs from what the stored `rW` absorbed. -/
def envX : Env := { envW with eventsInfo := ⟨⟨true, false, false⟩, false⟩ }

/-- Counterexample to Claim C1 as stated: the duplicate WRITE (same seq 3
and hash as `last_valid_request`, stored response `rW` present) is answered
from idle by selecting the stored `rW` for retransmission, yet the bytes
actually transmitted are not those of `rW` — `write_solicited` ORs in the
current IIN environment, which now carries CLASS_1_EVENTS. -/
theorem duplicate_request_echo_counterexample :
    (process_request_from_idle envX cfgW stC1 infoW reqC1N).1 =
      some (LastValidRequest.new 3 1801 (some rW) none) ∧
    (handle_one_request_from_idle envX cfgW stC1 infoW reqC1N).1 ≠ some rW := by
  constructor <;> decide

/-- Claim C2: a repeat READ (same seq and hash) from idle is answered with
a fresh read response obtained by re-selecting the request's object headers
against the database — the produced response and series are exactly those
of `write_first_read_response`, and are independent of the stored prior
response. -/
theorem repeat_read_fresh_response (env : Env) (cfg : SessionConfig)
    (st : SessionState) (last : LastValidRequest) (info : FragmentInfo)
    (req : Request) (objs : HeaderCollection)
    (hlvr : st.last_valid_request = some last)
    (hseq : last.seq = req.header.control.seq)
    (hhash : last.request_hash = env.xxh64 req.raw_fragment)
    (hread : req.header.function = FunctionCode.read)
    (hbc : info.broadcast = none)
    (hobj : req.objects = Except.ok objs) :
    process_request_from_idle env cfg st info req =
      (some (LastValidRequest.new req.header.control.seq
        (env.xxh64 req.raw_fragment)
        (some (write_first_read_response env req.header.control.seq objs).1)
        (write_first_read_response env req.header.control.seq objs).2), st) ∧
    (∀ r2 : Option Response,
      (process_request_from_idle env cfg
        { st with last_valid_request := some { last with response := r2 } }
        info req).1 =
      (process_request_from_idle env cfg st info req).1) := by
  have hconf : req.header.function ≠ FunctionCode.confirm := by
    rw [hread]
    intro h
    exact absurd h (by decide)
  have hcl := classify_repeated env st info req last objs hlvr hseq hhash hconf hbc hobj
  rw [if_pos hread] at hcl
  constructor
  · simp [process_request_from_idle, hcl]
  · intro r2
    have hcl2 := classify_repeated env
      { st with last_valid_request := some { last with response := r2 } } info req
      { last with response := r2 } objs rfl hseq hhash hconf hbc hobj
    rw [if_pos hread] at hcl2
    simp [process_request_from_idle, hcl, hcl2]

/-- Witness for C2: the repeat READ from idle gets the fresh database
response (payload `dbData 1`), not the stored `rW`, and the result does not
depend on the stored response. -/
theorem repeat_read_fresh_response_witness :
    process_request_from_idle envW cfgW stC1 infoW reqC1R =
      (some (LastValidRequest.new 3 1801
        (some (write_first_read_response envW 3 []).1)
        (write_first_read_response envW 3 []).2), stC1) ∧
    (∀ r2 : Option Response,
      (process_request_from_idle envW cfgW
        { stC1 with last_valid_request := some { lastW with response := r2 } }
        infoW reqC1R).1 =
      (process_request_from_idle envW cfgW stC1 infoW reqC1R).1) :=
  repeat_read_fresh_response envW cfgW stC1 lastW infoW reqC1R []
    rfl rfl rfl rfl rfl rfl

/-- Whether a WRITE body is a single Group80Var1 range header holding a
`false` bit at index 7 (the only write that clears the restart IIN). -/
def g80v1_clear_bit (object_headers : HeaderCollection) : Bool :=
  match get_only_header object_headers with
  | some ⟨HeaderDetails.oneByteStartStop _ _ (.g80v1 bits)⟩ =>
    bits.any (fun b => !b.1 && (b.2 == 7))
  | _ => false

/-- Whether a request is a WRITE whose parsed body clears IIN 1.7. -/
def request_clears_restart (req : Request) : Bool :=
  (req.header.function == FunctionCode.write) &&
    (match req.objects with
     | .ok objs => g80v1_clear_bit objs
     | .error _ => false)

theorem get_response_iin_restart (env : Env) (st : SessionState) :
    (get_response_iin env st).2.restart_iin_asserted = st.restart_iin_asserted := by
  unfold get_response_iin
  rcases hb : st.last_broadcast_type with _ | mode
  · simp [hb]
  · cases mode <;> simp [hb]

theorem write_solicited_snd (env : Env) (st : SessionState) (r : Response) :
    (write_solicited env st r).2 = (get_response_iin env st).2 := by
  unfold write_solicited
  rcases hg : get_response_iin env st with ⟨iin, st2⟩
  rfl

theorem write_solicited_restart (env : Env) (st : SessionState) (r : Response) :
    (write_solicited env st r).2.restart_iin_asserted = st.restart_iin_asserted := by
  rw [write_solicited_snd]
  exact get_response_iin_restart env st

/-- Folding the Group80Var1 bit loop: the restart flag survives exactly
when no `(false, 7)` bit occurs. -/
theorem handle_g80v1_fold_restart (bits : List (Bool × Nat)) :
    ∀ (st : SessionState) (iin2 : Iin2),
      ((bits.foldl (fun p bit => handle_g80v1_bit p.1 p.2 bit) (st, iin2)).1).restart_iin_asserted =
        (st.restart_iin_asserted && !(bits.any (fun b => !b.1 && (b.2 == 7)))) := by
  induction bits with
  | nil =>
    intro st iin2
    simp
  | cons bit rest ih =>
    intro st iin2
    rcases bit with ⟨v, i⟩
    by_cases hi : i = 7
    · subst hi
      cases v
      · have h1 : handle_g80v1_bit (st, iin2).1 (st, iin2).2 (false, 7) =
            ({ st with restart_iin_asserted := false }, iin2) := rfl
        rw [List.foldl_cons, h1, ih]
        simp
      · have h1 : handle_g80v1_bit (st, iin2).1 (st, iin2).2 (true, 7) =
            (st, iin2.or Iin2.PARAMETER_ERROR) := rfl
        rw [List.foldl_cons, h1, ih]
        simp
    · have h1 : handle_g80v1_bit (st, iin2).1 (st, iin2).2 (v, i) =
          (st, iin2.or Iin2.PARAMETER_ERROR) := by
        simp [handle_g80v1_bit, hi]
      rw [List.foldl_cons, h1, ih]
      have h2 : (i == 7) = false := beq_eq_false_iff_ne.mpr hi
      simp [h2]

theorem handle_g50v3_restart (env : Env) (st : SessionState)
    (values : List Group50Var3) :
    ((handle_g50v3 env st values).1).restart_iin_asserted = st.restart_iin_asserted := by
  unfold handle_g50v3
  split
  · rfl
  · split
    · rfl
    · split
      · rfl
      · split
        · rfl
        · split <;> rfl

theorem handle_write_restart (env : Env) (st : SessionState) (seq : Sequence)
    (hs : HeaderCollection) :
    ((handle_write env st seq hs).1).restart_iin_asserted =
      (st.restart_iin_asserted && !(g80v1_clear_bit hs)) := by
  unfold handle_write g80v1_clear_bit
  rcases hh : get_only_header hs with _ | h
  · simp
  · rcases h with ⟨d⟩
    cases d with
    | oneByteStartStop a b rv =>
      cases rv with
      | g80v1 bits => simpa using handle_g80v1_fold_restart bits st {}
      | g20v0 => simp
      | otherRanged g va => simp
    | twoByteStartStop a b rv => simp
    | allObjects v => simp
    | twoByteCount cv => simp
    | oneByteCount cv =>
      cases cv with
      | g50v1 values =>
        rcases hv : single values with _ | v
        · simp [hv]
        · cases hw : env.writeAbsoluteTime v.time <;> simp [hv, hw]
      | g50v3 values =>
        simpa using handle_g50v3_restart env st values
      | g52v1 values => simp
      | g52v2 values => simp
      | otherCount g va => simp

/-- Folds over object headers that never touch the restart flag preserve
it. -/
theorem foldl_restart_preserved {α : Type}
    (f : SessionState × Iin2 → α → SessionState × Iin2)
    (hf : ∀ p a, ((f p a).1).restart_iin_asserted = (p.1).restart_iin_asserted) :
    ∀ (l : List α) (p : SessionState × Iin2),
      ((l.foldl f p).1).restart_iin_asserted = (p.1).restart_iin_asserted := by
  intro l
  induction l with
  | nil => intro p; rfl
  | cons a rest ih =>
    intro p
    rw [List.foldl_cons, ih, hf]

theorem handle_enable_disable_restart (cfg : SessionConfig) (st : SessionState)
    (enable : Bool) (seq : Sequence) (hs : HeaderCollection) :
    ((handle_enable_or_disable_unsolicited cfg st enable seq hs).1).restart_iin_asserted =
      st.restart_iin_asserted := by
  unfold handle_enable_or_disable_unsolicited
  by_cases hu : cfg.unsolicitedEnabled
  · simp only [hu, not_true, if_neg, ite_not]
    have := foldl_restart_preserved
      (fun p h =>
        match h.details with
        | .allObjects .g60v2 =>
          ({ p.1 with enabled_unsolicited_classes.class1 := enable }, p.2)
        | .allObjects .g60v3 =>
          ({ p.1 with enabled_unsolicited_classes.class2 := enable }, p.2)
        | .allObjects .g60v4 =>
          ({ p.1 with enabled_unsolicited_classes.class3 := enable }, p.2)
        | _ => (p.1, p.2.or Iin2.NO_FUNC_CODE_SUPPORT))
      (by
        intro p h
        rcases h with ⟨d⟩
        cases d with
        | allObjects v => cases v <;> rfl
        | oneByteStartStop a b rv => rfl
        | twoByteStartStop a b rv => rfl
        | oneByteCount cv => rfl
        | twoByteCount cv => rfl)
      hs (st, {})
    simpa using this
  · simp [hu]

theorem handle_select_restart (env : Env) (st : SessionState) (seq : Sequence)
    (frame_id : Nat) (hs : HeaderCollection) :
    ((handle_select env st seq frame_id hs).1).restart_iin_asserted =
      st.restart_iin_asserted := by
  unfold handle_select
  by_cases hp : env.controlParseOk hs
  · simp only [hp, if_true]
    split <;> rfl
  · simp [hp]

/-- The non-read dispatcher preserves the restart flag unless the function
is a WRITE whose body clears IIN 1.7. -/
theorem handle_non_read_restart (env : Env) (cfg : SessionConfig)
    (st : SessionState) (function : FunctionCode) (seq : Sequence)
    (frame_id : Nat) (hs : HeaderCollection)
    (hw : function = FunctionCode.write → g80v1_clear_bit hs = false) :
    ((handle_non_read env cfg st function seq frame_id hs).1).restart_iin_asserted =
      st.restart_iin_asserted := by
  cases function with
  | write =>
    have hclear := hw rfl
    simp only [handle_non_read]
    rcases hh : handle_write env st seq hs with ⟨st2, r⟩
    have := handle_write_restart env st seq hs
    rw [hh, hclear] at this
    simpa using this
  | confirm => rfl
  | read => rfl
  | delayMeasure => rfl
  | recordCurrentTime => rfl
  | coldRestart => rfl
  | warmRestart => rfl
  | select =>
    simp only [handle_non_read]
    rcases hh : handle_select env st seq frame_id hs with ⟨st2, r⟩
    have := handle_select_restart env st seq frame_id hs
    rw [hh] at this
    simpa using this
  | operate => rfl
  | directOperate => rfl
  | directOperateNoResponse => rfl
  | immediateFreeze =>
    simp only [handle_non_read]
    rcases hh : handle_freeze env seq hs FreezeType.immediateFreeze true with _ | r <;>
      simp [hh]
  | immediateFreezeNoResponse =>
    simp only [handle_non_read]
    rcases hh : handle_freeze env seq hs FreezeType.immediateFreeze false with _ | r <;>
      simp [hh]
  | freezeClear =>
    simp only [handle_non_read]
    rcases hh : handle_freeze env seq hs FreezeType.freezeAndClear true with _ | r <;>
      simp [hh]
  | freezeClearNoResponse =>
    simp only [handle_non_read]
    rcases hh : handle_freeze env seq hs FreezeType.freezeAndClear false with _ | r <;>
      simp [hh]
  | enableUnsolicited =>
    simp only [handle_non_read]
    rcases hh : handle_enable_or_disable_unsolicited cfg st true seq hs with ⟨st2, r⟩
    have := handle_enable_disable_restart cfg st true seq hs
    rw [hh] at this
    simpa using this
  | disableUnsolicited =>
    simp only [handle_non_read]
    rcases hh : handle_enable_or_disable_unsolicited cfg st false seq hs with ⟨st2, r⟩
    have := handle_enable_disable_restart cfg st false seq hs
    rw [hh] at this
    simpa using this
  | unsupported code => rfl

/-- Broadcast processing preserves the restart flag unless it carries a
WRITE clearing IIN 1.7. -/
theorem process_broadcast_restart (env : Env) (cfg : SessionConfig)
    (st : SessionState) (mode : BroadcastConfirmMode) (req : Request)
    (hw : req.header.function = FunctionCode.write →
      ∀ objs, req.objects = Except.ok objs → g80v1_clear_bit objs = false) :
    (process_broadcast env cfg st mode req).restart_iin_asserted =
      st.restart_iin_asserted := by
  unfold process_broadcast process_broadcast_get_action
  by_cases he : cfg.broadcastEnabled
  · simp only [he, not_true, if_neg, ite_not]
    rcases ho : req.objects with err | objs
    · simp
    · cases hf : req.header.function with
      | confirm => rfl
      | read => rfl
      | select => rfl
      | operate => rfl
      | directOperate => rfl
      | directOperateNoResponse => rfl
      | immediateFreeze => rfl
      | immediateFreezeNoResponse => rfl
      | freezeClear => rfl
      | freezeClearNoResponse => rfl
      | coldRestart => rfl
      | warmRestart => rfl
      | delayMeasure => rfl
      | recordCurrentTime => rfl
      | unsupported code => rfl
      | write =>
        have hclear := hw hf objs ho
        simp only []
        rcases hh : handle_write env { st with last_broadcast_type := some mode }
            req.header.control.seq objs with ⟨st2, r⟩
        have := handle_write_restart env { st with last_broadcast_type := some mode }
          req.header.control.seq objs
        rw [hh, hclear] at this
        simpa using this
      | disableUnsolicited =>
        simp only []
        rcases hh : handle_enable_or_disable_unsolicited cfg
            { st with last_broadcast_type := some mode } false
            req.header.control.seq objs with ⟨st2, r⟩
        have := handle_enable_disable_restart cfg
          { st with last_broadcast_type := some mode } false req.header.control.seq objs
        rw [hh] at this
        simpa using this
      | enableUnsolicited =>
        simp only []
        rcases hh : handle_enable_or_disable_unsolicited cfg
            { st with last_broadcast_type := some mode } true
            req.header.control.seq objs with ⟨st2, r⟩
        have := handle_enable_disable_restart cfg
          { st with last_broadcast_type := some mode } true req.header.control.seq objs
        rw [hh] at this
        simpa using this
  · simp [he]

/-- Idle-state processing of a fragment (including broadcasts) preserves
the restart flag unless the fragment is a WRITE whose body clears IIN 1.7. -/
theorem process_request_from_idle_restart (env : Env) (cfg : SessionConfig)
    (st : SessionState) (info : FragmentInfo) (req : Request)
    (hw : request_clears_restart req = false) :
    ((process_request_from_idle env cfg st info req).2).restart_iin_asserted =
      st.restart_iin_asserted := by
  have hw' : req.header.function = FunctionCode.write →
      ∀ objs, req.objects = Except.ok objs → g80v1_clear_bit objs = false := by
    intro hf objs ho
    unfold request_clears_restart at hw
    rw [hf, ho] at hw
    simpa using hw
  by_cases hc : req.header.function = FunctionCode.confirm
  · have hcl : classify env st info req =
        (if req.header.control.uns then
          FragmentType.unsolicitedConfirm req.header.control.seq
         else FragmentType.solicitedConfirm req.header.control.seq) := by
      simp [classify, hc]
    cases hu : req.header.control.uns <;>
      simp [process_request_from_idle, hcl, hu]
  · rcases hb : info.broadcast with _ | mode
    · rcases ho : req.objects with err | objs
      · have hcl : classify env st info req =
            FragmentType.malformedRequest (env.xxh64 req.raw_fragment) err := by
          simp [classify, hc, hb, ho]
        simp [process_request_from_idle, hcl]
      · by_cases hr : req.header.function = FunctionCode.read
        · have hcl : classify env st info req =
              FragmentType.newRead (env.xxh64 req.raw_fragment) objs ∨
              classify env st info req =
              FragmentType.repeatRead (env.xxh64 req.raw_fragment)
                (match st.last_valid_request with
                 | some last => last.response
                 | none => none) objs := by
            rcases hl : st.last_valid_request with _ | last
            · left
              simp [classify, hc, hb, ho, hl, hr]
            · by_cases hd : last.seq = req.header.control.seq ∧
                  last.request_hash = env.xxh64 req.raw_fragment
              · right
                simp [classify, hc, hb, ho, hl, hd, hr]
              · left
                simp [classify, hc, hb, ho, hl, hd, hr]
          rcases hcl with hcl | hcl <;> simp [process_request_from_idle, hcl]
        · rcases hl : st.last_valid_request with _ | last
          · have hcl : classify env st info req =
                FragmentType.newNonRead (env.xxh64 req.raw_fragment) objs := by
              simp [classify, hc, hb, ho, hl, hr]
            simp only [process_request_from_idle, hcl]
            rcases hh : handle_non_read env cfg st req.header.function
                req.header.control.seq info.id objs with ⟨st2, r⟩
            have := handle_non_read_restart env cfg st req.header.function
              req.header.control.seq info.id objs (fun hf => hw' hf objs ho)
            rw [hh] at this
            simpa using this
          · by_cases hd : last.seq = req.header.control.seq ∧
                last.request_hash = env.xxh64 req.raw_fragment
            · have hcl : classify env st info req =
                  FragmentType.repeatNonRead (env.xxh64 req.raw_fragment)
                    last.response := by
                simp [classify, hc, hb, ho, hl, hd, hr]
              simp only [process_request_from_idle, hcl]
              rcases hsel : st.select with _ | sel <;> simp [hsel]
            · have hcl : classify env st info req =
                  FragmentType.newNonRead (env.xxh64 req.raw_fragment) objs := by
                simp [classify, hc, hb, ho, hl, hd, hr]
              simp only [process_request_from_idle, hcl]
              rcases hh : handle_non_read env cfg st req.header.function
                  req.header.control.seq info.id objs with ⟨st2, r⟩
              have := handle_non_read_restart env cfg st req.header.function
                req.header.control.seq info.id objs (fun hf => hw' hf objs ho)
              rw [hh] at this
              simpa using this
    · have hcl : classify env st info req = FragmentType.broadcast mode := by
        simp [classify, hc, hb]
      simp only [process_request_from_idle, hcl]
      exact process_broadcast_restart env cfg st mode req hw'

theorem write_error_response_restart (env : Env) (st : SessionState)
    (err : TransportRequestError) :
    ((write_error_response env st err).2).restart_iin_asserted =
      st.restart_iin_asserted := by
  unfold write_error_response
  rcases err with e | ⟨seq, code⟩
  · rcases e with ⟨seq, code⟩ | _
    · simp only []
      rcases hw : write_solicited env st
          (Response.empty_solicited seq (Iin.default.orIin2 Iin2.NO_FUNC_CODE_SUPPORT))
        with ⟨sent, st2⟩
      have := write_solicited_restart env st
        (Response.empty_solicited seq (Iin.default.orIin2 Iin2.NO_FUNC_CODE_SUPPORT))
      rw [hw] at this
      simpa using this
    · rfl
  · simp only []
    rcases hw : write_solicited env st
        (Response.empty_solicited seq (Iin.default.orIin2 Iin2.NO_FUNC_CODE_SUPPORT))
      with ⟨sent, st2⟩
    have := write_solicited_restart env st
      (Response.empty_solicited seq (Iin.default.orIin2 Iin2.NO_FUNC_CODE_SUPPORT))
    rw [hw] at this
    simpa using this

/-- Fragment handling during UnsolConfirmWait preserves the restart flag
unless the fragment is a WRITE whose body clears IIN 1.7. -/
theorem wait_for_unsolicited_confirm_frag_restart (env : Env) (cfg : SessionConfig)
    (st : SessionState) (uns_ecsn : Sequence) (request : Option TransportRequest)
    (hw : ∀ info req, request = some (TransportRequest.request info req) →
      request_clears_restart req = false) :
    ((wait_for_unsolicited_confirm_frag env cfg st uns_ecsn request).2.1).restart_iin_asserted =
      st.restart_iin_asserted := by
  rcases request with _ | tr
  · rfl
  · rcases tr with ⟨info, req⟩ | _ | err
    case linkLayerMessage => rfl
    case transportError =>
      simp only [wait_for_unsolicited_confirm_frag]
      rcases hwe : write_error_response env { st with deferred_read := none } err
        with ⟨sent, st2⟩
      have := write_error_response_restart env { st with deferred_read := none } err
      rw [hwe] at this
      simpa using this
    case request =>
      have hw' := hw info req rfl
      have hww : req.header.function = FunctionCode.write →
          ∀ objs, req.objects = Except.ok objs → g80v1_clear_bit objs = false := by
        intro hf objs ho
        unfold request_clears_restart at hw'
        rw [hf, ho] at hw'
        simpa using hw'
      simp only [wait_for_unsolicited_confirm_frag]
      rcases hcl : classify env st info req with
        ⟨hash, err⟩ | ⟨hash, objs⟩ | ⟨hash, resp, objs⟩ | ⟨hash, objs⟩ |
        ⟨hash, resp⟩ | mode | seq | seq
      case malformedRequest =>
        simp only []
        rcases hws : write_solicited env { st with deferred_read := none }
            (Response.empty_solicited req.header.control.seq
              (Iin.default.orIin2 (Iin2.fromParseError err))) with ⟨sent, st2⟩
        have := write_solicited_restart env { st with deferred_read := none }
          (Response.empty_solicited req.header.control.seq
            (Iin.default.orIin2 (Iin2.fromParseError err)))
        rw [hws] at this
        simpa using this
      case newRead => rfl
      case repeatRead => rfl
      case newNonRead =>
        have hfun : req.header.function ≠ FunctionCode.confirm := by
          intro hf
          rw [classify, if_pos hf] at hcl
          cases hu : req.header.control.uns <;> rw [hu] at hcl <;> simp at hcl
        have hobjs : req.objects = Except.ok objs := by
          rw [classify, if_neg hfun] at hcl
          rcases hb : info.broadcast with _ | mode2
          · rw [hb] at hcl
            rcases ho : req.objects with err2 | objs2
            · rw [ho] at hcl
              simp at hcl
            · rw [ho] at hcl
              rcases hl : st.last_valid_request with _ | last
              · rw [hl] at hcl
                simp only [] at hcl
                split at hcl <;> simp at hcl
                rw [hcl.2]
              · rw [hl] at hcl
                simp only [] at hcl
                split at hcl <;> split at hcl <;> simp at hcl
                rw [hcl.2]
          · rw [hb] at hcl
            simp at hcl
        simp only []
        rcases hh : handle_non_read env cfg { st with deferred_read := none }
            req.header.function req.header.control.seq info.id objs with ⟨st2, resp⟩
        have hpres := handle_non_read_restart env cfg { st with deferred_read := none }
          req.header.function req.header.control.seq info.id objs
          (fun hf => hww hf objs hobjs)
        rw [hh] at hpres
        simp only [] at hpres
        rcases resp with _ | r
        · split <;> simpa using hpres
        · rcases hws : write_solicited env st2 r with ⟨sent, st3⟩
          have hws2 := write_solicited_restart env st2 r
          rw [hws] at hws2
          simp only [] at hws2
          split <;> simp [hws, hws2, hpres]
      case repeatNonRead =>
        rcases resp with _ | r <;> rfl
      case broadcast =>
        simp only []
        exact process_broadcast_restart env cfg { st with deferred_read := none }
          mode req hww
      case solicitedConfirm =>
        simp only []
        split <;> rfl
      case unsolicitedConfirm =>
        simp only []
        split <;> rfl

/-- Claim C4: `restart_iin_asserted` is true at construction; every
operation (the non-read dispatcher, idle-state processing including
broadcasts, and unsolicited-wait fragment handling) leaves it unchanged
except a WRITE of Group80Var1 whose bit at index 7 is false, which clears
it; a Group80Var1 write of index 7 to true, or of any other index, leaves
the flag unchanged and sets IIN2 PARAMETER_ERROR in the response. -/
theorem restart_iin_invariant (env : Env) (cfg : SessionConfig) (st : SessionState)
    (seq : Sequence) (frame_id : Nat) (function : FunctionCode)
    (hs : HeaderCollection) (info : FragmentInfo) (req : Request)
    (request : Option TransportRequest)
    (v : Bool) (i start stop : Nat) (bits : List (Bool × Nat)) :
    SessionState.new.restart_iin_asserted = true ∧
    ((function = FunctionCode.write → g80v1_clear_bit hs = false) →
      ((handle_non_read env cfg st function seq frame_id hs).1).restart_iin_asserted =
        st.restart_iin_asserted) ∧
    (request_clears_restart req = false →
      ((process_request_from_idle env cfg st info req).2).restart_iin_asserted =
        st.restart_iin_asserted) ∧
    ((∀ i2 r2, request = some (TransportRequest.request i2 r2) →
        request_clears_restart r2 = false) →
      ((wait_for_unsolicited_confirm_frag env cfg st seq request).2.1).restart_iin_asserted =
        st.restart_iin_asserted) ∧
    ((false, 7) ∈ bits →
      ((handle_write env st seq
        [⟨HeaderDetails.oneByteStartStop start stop
          (RangedVariation.g80v1 bits)⟩]).1).restart_iin_asserted = false) ∧
    (handle_write env st seq
        [⟨HeaderDetails.oneByteStartStop start stop
          (RangedVariation.g80v1 [(true, 7)])⟩] =
      (st, Response.empty_solicited seq (Iin.default.orIin2 Iin2.PARAMETER_ERROR))) ∧
    (i ≠ 7 →
      handle_write env st seq
        [⟨HeaderDetails.oneByteStartStop start stop
          (RangedVariation.g80v1 [(v, i)])⟩] =
        (st, Response.empty_solicited seq (Iin.default.orIin2 Iin2.PARAMETER_ERROR))) := by
  refine ⟨rfl,
    handle_non_read_restart env cfg st function seq frame_id hs,
    process_request_from_idle_restart env cfg st info req,
    wait_for_unsolicited_confirm_frag_restart env cfg st seq request,
    fun hmem => ?_, ?_, fun hi => ?_⟩
  · rw [handle_write_restart]
    have hclear : g80v1_clear_bit
        [⟨HeaderDetails.oneByteStartStop start stop (RangedVariation.g80v1 bits)⟩] =
        bits.any (fun b => !b.1 && (b.2 == 7)) := rfl
    have hany : bits.any (fun b => !b.1 && (b.2 == 7)) = true :=
      List.any_eq_true.mpr ⟨(false, 7), hmem, by decide⟩
    rw [hclear, hany]
    simp
  · rfl
  · have h2 : (i == 7) = false := beq_eq_false_iff_ne.mpr hi
    simp [handle_write, get_only_header, single, handle_g80v1_bit, hi, Iin2.or,
      Iin2.PARAMETER_ERROR]

/-- Witness for C4: a fresh session, a WRITE dispatch with empty body, the
duplicate WRITE request from idle and in the unsolicited wait, plus the
three concrete Group80Var1 writes. -/
theorem restart_iin_invariant_witness :
    SessionState.new.restart_iin_asserted = true ∧
    ((handle_non_read envW cfgW SessionState.new FunctionCode.write 3 0 []).1).restart_iin_asserted =
      SessionState.new.restart_iin_asserted ∧
    ((process_request_from_idle envW cfgW SessionState.new infoW reqC1N).2).restart_iin_asserted =
      SessionState.new.restart_iin_asserted ∧
    ((wait_for_unsolicited_confirm_frag envW cfgW SessionState.new 3
        (some (TransportRequest.request infoW reqC1N))).2.1).restart_iin_asserted =
      SessionState.new.restart_iin_asserted ∧
    ((handle_write envW SessionState.new 3
        [⟨HeaderDetails.oneByteStartStop 0 7
          (RangedVariation.g80v1 [(false, 7)])⟩]).1).restart_iin_asserted = false ∧
    (handle_write envW SessionState.new 3
        [⟨HeaderDetails.oneByteStartStop 0 7
          (RangedVariation.g80v1 [(true, 7)])⟩] =
      (SessionState.new,
        Response.empty_solicited 3 (Iin.default.orIin2 Iin2.PARAMETER_ERROR))) ∧
    (handle_write envW SessionState.new 3
        [⟨HeaderDetails.oneByteStartStop 0 7
          (RangedVariation.g80v1 [(true, 3)])⟩] =
      (SessionState.new,
        Response.empty_solicited 3 (Iin.default.orIin2 Iin2.PARAMETER_ERROR))) := by
  have T := restart_iin_invariant envW cfgW SessionState.new 3 0 FunctionCode.write
    [] infoW reqC1N (some (TransportRequest.request infoW reqC1N)) true 3 0 7
    [(false, 7)]
  exact ⟨T.1, T.2.1 (fun _ => by decide), T.2.2.1 (by decide),
    T.2.2.2.1 (by
      intro i2 r2 h
      injection h with h2
      injection h2 with hi hr
      subst hr
      decide),
    T.2.2.2.2.1 (by decide), T.2.2.2.2.2.1, T.2.2.2.2.2.2 (by decide)⟩

end Dnp3









